import Mathlib

/-!
# The HPMicro I2S audio driver, `bsp/hpmicro/libraries/drivers/drv_i2s.c`

A shallow embedding of the driver's operations (`hpm_i2s_init`, `hpm_i2s_getcaps`,
`hpm_i2s_configure`, `hpm_i2s_start`, `hpm_i2s_stop`, `hpm_i2s_transmit`, the two DMA
completion callbacks) as pure functions over an explicit device state.

* The device state is `hpm_i2s`, the fields of `struct hpm_i2s` the driver reads or writes.
* Every call the driver makes to a collaborator with an effect (peripheral, DMA manager,
  DMA engine, cache, host audio layer) is appended to a trace of `Event`s, oldest first.
  `LOG_E` diagnostics are not recorded.
* Everything the driver takes from outside `drv_i2s.c` (constants and address macros of
  headers, the answers of the collaborators) is a field of `Platform`.
  Answers of collaborators may depend on the calls made so far, so they take the trace.
* The integer arguments that the driver only compares with named constants (`main_type`,
  `sub_type`, `stream`) are given by the constant they match.
* A notification to the host audio layer (`rt_audio_tx_complete`, `rt_audio_rx_done`) is
  recorded as a call; what the host layer does with it is not part of the driver call.
* `assert` stops the call unless the platform compiles it out (`NDEBUG`).
-/

namespace DrvI2s

/-! ## Data model -/

/-- The `struct rt_audio_configure` of the host audio layer: `samplerate` is a 32-bit,
`channels` and `samplebits` are 16-bit unsigned fields. -/
structure rt_audio_configure where
  samplerate : Nat
  channels : Nat
  samplebits : Nat
  deriving DecidableEq, Repr

/-- The fields of `i2s_transfer_config_t` that the driver names. `audio_depth` and
`data_line` are 8-bit fields. -/
structure i2s_transfer_config_t where
  sample_rate : Nat
  protocol : Nat
  channel_slot_mask : Nat
  audio_depth : Nat
  master_mode : Bool
  data_line : Nat
  deriving DecidableEq, Repr

/-- The fields of `i2s_config_t` that the driver names. -/
structure i2s_config_t where
  enable_mclk_out : Bool
  frame_start_at_rising_edge : Bool
  deriving DecidableEq, Repr

/-- The fields of `hpm_dma_resource_t` that the driver names. -/
structure hpm_dma_resource_t where
  base : Nat
  channel : Nat
  deriving DecidableEq, Repr

/-- The fields of `dma_channel_config_t` that the driver names. -/
structure dma_channel_config_t where
  src_addr : Nat
  dst_addr : Nat
  src_width : Nat
  dst_width : Nat
  src_addr_ctrl : Nat
  dst_addr_ctrl : Nat
  size_in_byte : Nat
  src_mode : Nat
  dst_mode : Nat
  src_burst_size : Nat
  deriving DecidableEq, Repr

/-- A 32-bit unsigned word read as a signed 32-bit integer: how an `rt_size_t` comes back
through the return type `rt_ssize_t` on the 32-bit target of the driver, and how the shared
word of `udata` reads as `int`. -/
def signed32 (n : Nat) : Int :=
  if n % 2 ^ 32 < 2 ^ 31 then ((n % 2 ^ 32 : Nat) : Int)
  else ((n % 2 ^ 32 : Nat) : Int) - 2 ^ 32

/-- Which case label of `switch(caps->main_type)` the value of `main_type` matches. -/
inductive MainType where
  | AUDIO_TYPE_INPUT
  | AUDIO_TYPE_OUTPUT
  | other
  deriving DecidableEq, Repr

/-- Which case label of `switch(caps->sub_type)` the value of `sub_type` matches. -/
inductive SubType where
  | AUDIO_DSP_PARAM
  | AUDIO_DSP_SAMPLERATE
  | AUDIO_DSP_CHANNELS
  | AUDIO_DSP_SAMPLEBITS
  | AUDIO_PARM_I2S_DATA_LINE
  | other
  deriving DecidableEq, Repr

/-- The `struct rt_audio_caps` argument. `udata` is a union in C; its two views used by the
driver, `udata.config` and `udata.value`, are kept as two fields. The `int` of `udata.value`
and the 32-bit `udata.config.samplerate` share one word, so a store through one of them is
made to both fields. -/
structure rt_audio_caps where
  main_type : MainType
  sub_type : SubType
  config : rt_audio_configure
  value : Int
  deriving DecidableEq, Repr

/-- The `stream` argument of `start` and `stop`, as compared against `AUDIO_STREAM_REPLAY`
and then `AUDIO_STREAM_RECORD`. -/
inductive Stream where
  | AUDIO_STREAM_REPLAY
  | AUDIO_STREAM_RECORD
  | other
  deriving DecidableEq, Repr

/-- The two DMA resource slots of a device, `tx_dma_resource` and `rx_dma_resource`. -/
inductive DmaSlot where
  | tx
  | rx
  deriving DecidableEq, Repr

/-- One call made by the driver to a collaborator (with the answer it got, where the driver
looks at the answer), or the entry of a completion callback. -/
inductive Event where
  | init_i2s_pins (base : Nat)
  | board_init_i2s_clock (base : Nat)
  | i2s_enable_rx_dma_request (base : Nat)
  | i2s_enable_tx_dma_request (base : Nat)
  | i2s_init (base : Nat) (config : i2s_config_t)
  | i2s_config_transfer (base mclk : Nat) (transfer : i2s_transfer_config_t) (success : Bool)
  | dma_manager_request_resource (slot : DmaSlot) (granted : Option hpm_dma_resource_t)
  | dma_manager_install_interrupt_callback (r : hpm_dma_resource_t) (callback : DmaSlot)
  | dma_manager_enable_dma_interrupt (r : hpm_dma_resource_t) (enable : Nat)
  | dmamux_config (dmamux_ch : Nat) (src : Nat) (enable : Bool)
  | dma_manager_release_resource (slot : DmaSlot) (r : hpm_dma_resource_t)
  | l1c_dc_writeback (address size : Nat)
  | l1c_dc_invalidate (address size : Nat)
  | dma_setup_channel (base channel : Nat) (config : dma_channel_config_t) (success : Bool)
  | rt_audio_tx_complete
  | rt_audio_rx_done (buffer size : Nat)
  | dma_callback (slot : DmaSlot) (int_stat : Nat)
  deriving DecidableEq, Repr

/-- What the driver takes from outside `drv_i2s.c`: constants and macros of headers, and the
answers of the collaborators it calls. -/
structure Platform where
  /-- The constant `RT_EOK`. -/
  RT_EOK : Int
  /-- The constant `RT_ERROR`. -/
  RT_ERROR : Int
  /-- Whether `assert` is compiled out. -/
  NDEBUG : Bool
  I2S_FIFO_SIZE : Nat
  i2s_mono_left : Nat
  i2s_mono_right : Nat
  I2S_AUDIO_DEPTH_16_BITS : Nat
  I2S_PROTOCOL_LEFT_JUSTIFIED : Nat
  DMA_TRANSFER_WIDTH_HALF_WORD : Nat
  DMA_TRANSFER_WIDTH_WORD : Nat
  DMA_ADDRESS_CONTROL_INCREMENT : Nat
  DMA_ADDRESS_CONTROL_FIXED : Nat
  DMA_HANDSHAKE_MODE_HANDSHAKE : Nat
  DMA_NUM_TRANSFER_PER_BURST_1T : Nat
  DMA_CHANNEL_STATUS_TC : Nat
  /-- The macro `I2S_CHANNEL_SLOT_MASK(x)`. -/
  I2S_CHANNEL_SLOT_MASK : Nat → Nat
  /-- The address `&base->TXD[i]`. -/
  TXD : Nat → Nat → Nat
  /-- The address `&base->RXD[i]`. -/
  RXD : Nat → Nat → Nat
  /-- The macro `DMA_SOC_CHN_TO_DMAMUX_CHN(base, channel)`. -/
  DMA_SOC_CHN_TO_DMAMUX_CHN : Nat → Nat → Nat
  /-- The system address `core_local_mem_to_sys_address(HPM_CORE0, addr)`. -/
  core_local_mem_to_sys_address : Nat → Nat
  /-- What `dma_default_channel_config(base, &ch_config)` leaves in a zeroed `ch_config`. -/
  dma_default_channel_config : Nat → dma_channel_config_t
  /-- What `i2s_get_default_config(base, &i2s_config)` leaves in `i2s_config`. -/
  i2s_get_default_config : Nat → i2s_config_t
  /-- What `i2s_get_default_transfer_config(&transfer)` leaves in `transfer`. -/
  i2s_get_default_transfer_config : i2s_transfer_config_t
  /-- The answer of `clock_get_frequency(clk_name)`. -/
  clock_get_frequency : List Event → Nat → Nat
  /-- Whether `i2s_config_transfer(base, mclk, &transfer)` answers `status_success`. -/
  i2s_config_transfer : List Event → Nat → Nat → i2s_transfer_config_t → Bool
  /-- The resource `dma_manager_request_resource` grants, `none` when it does not answer
  `status_success`. -/
  dma_manager_request_resource : List Event → Option hpm_dma_resource_t
  /-- Whether `dma_setup_channel(base, channel, &ch_config)` answers `status_success`. -/
  dma_setup_channel : List Event → Nat → Nat → dma_channel_config_t → Bool
  /-- The answer of `l1c_dc_is_enabled()`. -/
  l1c_dc_is_enabled : List Event → Bool

/-- The fields of `struct hpm_i2s` the driver reads or writes. Buffers and the peripheral are
addresses; address 0 is `NULL`. -/
structure hpm_i2s where
  audio_config : rt_audio_configure
  rx_dma_resource : hpm_dma_resource_t
  tx_dma_resource : hpm_dma_resource_t
  base : Nat
  clk_name : Nat
  transfer : i2s_transfer_config_t
  rx_dma_req : Nat
  tx_dma_req : Nat
  tx_buff : Nat
  rx_buff : Nat
  deriving DecidableEq, Repr

/-- A device together with the calls made so far, oldest first. -/
structure Machine where
  dev : hpm_i2s
  trace : List Event
  deriving DecidableEq, Repr

/-- How a call of `hpm_i2s_configure` ends: it returns a value, or it stops in `assert`. -/
inductive Outcome where
  | ret (result : Int) (m : Machine)
  | assert_failed (m : Machine)
  deriving DecidableEq, Repr

/-- The machine at the point where a call of `hpm_i2s_configure` ends. -/
def Outcome.machine : Outcome → Machine
  | .ret _ m => m
  | .assert_failed m => m

/-- The value a call of `hpm_i2s_configure` returns, `none` when it stops in `assert`. -/
def Outcome.returned : Outcome → Option Int
  | .ret result _ => some result
  | .assert_failed _ => none

/-! ## Capability get and set -/

/-- The function `hpm_i2s_getcaps` (lines 173-278): the result and the `caps` as the call
leaves it. A store to `udata.config.samplerate` is also seen through `udata.value`, and the
store to `udata.value` (of a data line, which has 8 bits) through `udata.config.samplerate`. -/
def hpm_i2s_getcaps (P : Platform) (hpm_audio : hpm_i2s) (caps : rt_audio_caps) :
    Int × rt_audio_caps :=
  match caps.main_type with
  | .AUDIO_TYPE_INPUT =>
    match caps.sub_type with
    | .AUDIO_DSP_PARAM =>
      (P.RT_EOK, { caps with config := { channels := hpm_audio.audio_config.channels,
                                         samplebits := hpm_audio.audio_config.samplebits,
                                         samplerate := hpm_audio.audio_config.samplerate },
                             value := signed32 hpm_audio.audio_config.samplerate })
    | .AUDIO_DSP_SAMPLERATE =>
      (P.RT_EOK, { caps with
        config := { caps.config with samplerate := hpm_audio.audio_config.samplerate },
        value := signed32 hpm_audio.audio_config.samplerate })
    | .AUDIO_DSP_CHANNELS =>
      (P.RT_EOK, { caps with config :=
        { caps.config with channels := hpm_audio.audio_config.channels } })
    | .AUDIO_DSP_SAMPLEBITS =>
      (P.RT_EOK, { caps with config :=
        { caps.config with samplebits := hpm_audio.audio_config.samplebits } })
    | .AUDIO_PARM_I2S_DATA_LINE =>
      (P.RT_EOK, { caps with
        value := (hpm_audio.transfer.data_line : Int),
        config := { caps.config with samplerate := hpm_audio.transfer.data_line } })
    | .other => (-P.RT_ERROR, caps)
  | .AUDIO_TYPE_OUTPUT =>
    match caps.sub_type with
    | .AUDIO_DSP_PARAM =>
      (P.RT_EOK, { caps with config := { samplerate := hpm_audio.audio_config.samplerate,
                                         channels := hpm_audio.audio_config.channels,
                                         samplebits := hpm_audio.audio_config.samplebits },
                             value := signed32 hpm_audio.audio_config.samplerate })
    | .AUDIO_DSP_SAMPLERATE =>
      (P.RT_EOK, { caps with
        config := { caps.config with samplerate := hpm_audio.audio_config.samplerate },
        value := signed32 hpm_audio.audio_config.samplerate })
    | .AUDIO_DSP_CHANNELS =>
      (P.RT_EOK, { caps with config :=
        { caps.config with channels := hpm_audio.audio_config.channels } })
    | .AUDIO_DSP_SAMPLEBITS =>
      (P.RT_EOK, { caps with config :=
        { caps.config with samplebits := hpm_audio.audio_config.samplebits } })
    | .AUDIO_PARM_I2S_DATA_LINE =>
      (P.RT_EOK, { caps with
        value := (hpm_audio.transfer.data_line : Int),
        config := { caps.config with samplerate := hpm_audio.transfer.data_line } })
    | .other => (-P.RT_ERROR, caps)
  | .other => (-P.RT_ERROR, caps)

/-- The two `switch` statements of `hpm_i2s_configure` (lines 287-376): the value of
`result` and the device after the stores. `data_line` is an 8-bit field, so the stored
`int` is reduced modulo 256. -/
def configure_store (P : Platform) (hpm_audio : hpm_i2s) (caps : rt_audio_caps) :
    Int × hpm_i2s :=
  match caps.main_type with
  | .AUDIO_TYPE_OUTPUT =>
    match caps.sub_type with
    | .AUDIO_DSP_PARAM =>
      (P.RT_EOK, { hpm_audio with audio_config :=
        { samplerate := caps.config.samplerate,
          samplebits := caps.config.samplebits,
          channels := caps.config.channels } })
    | .AUDIO_DSP_SAMPLERATE =>
      (P.RT_EOK, { hpm_audio with audio_config :=
        { hpm_audio.audio_config with samplerate := caps.config.samplerate } })
    | .AUDIO_DSP_CHANNELS =>
      (P.RT_EOK, { hpm_audio with audio_config :=
        { hpm_audio.audio_config with channels := caps.config.channels } })
    | .AUDIO_DSP_SAMPLEBITS =>
      (P.RT_EOK, { hpm_audio with audio_config :=
        { hpm_audio.audio_config with samplebits := caps.config.samplebits } })
    | .AUDIO_PARM_I2S_DATA_LINE =>
      (P.RT_EOK, { hpm_audio with transfer :=
        { hpm_audio.transfer with data_line := (caps.value % 256).toNat } })
    | .other => (-P.RT_ERROR, hpm_audio)
  | .AUDIO_TYPE_INPUT =>
    match caps.sub_type with
    | .AUDIO_DSP_PARAM =>
      (P.RT_EOK, { hpm_audio with audio_config :=
        { samplerate := caps.config.samplerate,
          channels := caps.config.channels,
          samplebits := caps.config.samplebits } })
    | .AUDIO_DSP_SAMPLERATE =>
      (P.RT_EOK, { hpm_audio with audio_config :=
        { hpm_audio.audio_config with samplerate := caps.config.samplerate } })
    | .AUDIO_DSP_CHANNELS =>
      (P.RT_EOK, { hpm_audio with audio_config :=
        { hpm_audio.audio_config with channels := caps.config.channels } })
    | .AUDIO_DSP_SAMPLEBITS =>
      (P.RT_EOK, { hpm_audio with audio_config :=
        { hpm_audio.audio_config with samplebits := caps.config.samplebits } })
    | .AUDIO_PARM_I2S_DATA_LINE =>
      (P.RT_EOK, { hpm_audio with transfer :=
        { hpm_audio.transfer with data_line := (caps.value % 256).toNat } })
    | .other => (-P.RT_ERROR, hpm_audio)
  | .other => (P.RT_EOK, hpm_audio)

/-- The `if` chain on `audio_config.channels` (lines 379-388): the new `channel_slot_mask`,
or `none` where the driver returns `-RT_ERROR`. -/
def channel_slot_mask_of (P : Platform) (channels : Nat) : Option Nat :=
  if channels = P.i2s_mono_left then some (P.I2S_CHANNEL_SLOT_MASK 0)
  else if channels = P.i2s_mono_right then some (P.I2S_CHANNEL_SLOT_MASK 1)
  else if channels = 2 then some (P.I2S_CHANNEL_SLOT_MASK 0 ||| P.I2S_CHANNEL_SLOT_MASK 1)
  else none

/-- The value stored by `transfer.audio_depth = (samplebits - 16) >> 3` (line 394):
`samplebits` is promoted to `int`, the shift is arithmetic, the field has 8 bits. -/
def audio_depth_of (samplebits : Nat) : Nat :=
  ((((samplebits : Int) - 16) >>> 3) % 256).toNat

/-- The function `hpm_i2s_configure` (lines 280-401). `i2s_config_transfer` is taken to read
the transfer configuration without changing it; its answer only decides a diagnostic. -/
def hpm_i2s_configure (P : Platform) (m : Machine) (caps : rt_audio_caps) : Outcome :=
  let result := (configure_store P m.dev caps).1
  let hpm_audio := (configure_store P m.dev caps).2
  match channel_slot_mask_of P hpm_audio.audio_config.channels with
  | none => .ret (-P.RT_ERROR) { m with dev := hpm_audio }
  | some mask =>
    let hpm_audio : hpm_i2s := { hpm_audio with transfer :=
      { hpm_audio.transfer with channel_slot_mask := mask } }
    let hpm_audio : hpm_i2s := { hpm_audio with transfer :=
      { hpm_audio.transfer with sample_rate := hpm_audio.audio_config.samplerate } }
    if P.NDEBUG = false ∧
        ¬ (hpm_audio.audio_config.samplebits = 16 ∨ hpm_audio.audio_config.samplebits = 32) then
      .assert_failed { m with dev := hpm_audio }
    else
      let hpm_audio : hpm_i2s := { hpm_audio with transfer :=
        { hpm_audio.transfer with
          audio_depth := audio_depth_of hpm_audio.audio_config.samplebits } }
      let mclk := P.clock_get_frequency m.trace hpm_audio.clk_name
      let success := P.i2s_config_transfer m.trace hpm_audio.base mclk hpm_audio.transfer
      .ret result
        { dev := hpm_audio,
          trace := m.trace ++
            [.i2s_config_transfer hpm_audio.base mclk hpm_audio.transfer success] }


/-- What a caller of `hpm_i2s_getcaps` in direction `dir` reads back: asked for the whole
format, for the sample bits and for the channel count (with any `caps` contents `g` before
the call), every call returns `RT_EOK` and yields `bits` and `ch`. -/
def reads_back (P : Platform) (dev : hpm_i2s) (dir : MainType) (g : rt_audio_caps)
    (bits ch : Nat) : Prop :=
  let whole := hpm_i2s_getcaps P dev { g with main_type := dir, sub_type := .AUDIO_DSP_PARAM }
  let sb := hpm_i2s_getcaps P dev { g with main_type := dir, sub_type := .AUDIO_DSP_SAMPLEBITS }
  let cc := hpm_i2s_getcaps P dev { g with main_type := dir, sub_type := .AUDIO_DSP_CHANNELS }
  whole.1 = P.RT_EOK ∧ whole.2.config.samplebits = bits ∧ whole.2.config.channels = ch ∧
  sb.1 = P.RT_EOK ∧ sb.2.config.samplebits = bits ∧
  cc.1 = P.RT_EOK ∧ cc.2.config.channels = ch

instance (P : Platform) (dev : hpm_i2s) (dir : MainType) (g : rt_audio_caps) (bits ch : Nat) :
    Decidable (reads_back P dev dir g bits ch) := by
  unfold reads_back
  infer_instance

/-! ## Initialisation -/

/-- The function `hpm_i2s_init` (lines 130-171). -/
def hpm_i2s_init (P : Platform) (m : Machine) : Int × Machine :=
  let hpm_audio := m.dev
  let i2s_config : i2s_config_t :=
    { P.i2s_get_default_config hpm_audio.base with
      enable_mclk_out := true, frame_start_at_rising_edge := true }
  let trace := m.trace ++
    [.init_i2s_pins hpm_audio.base, .board_init_i2s_clock hpm_audio.base,
     .i2s_enable_rx_dma_request hpm_audio.base, .i2s_enable_tx_dma_request hpm_audio.base,
     .i2s_init hpm_audio.base i2s_config]
  let mclk_hz := P.clock_get_frequency trace hpm_audio.clk_name
  let transfer : i2s_transfer_config_t :=
    { P.i2s_get_default_transfer_config with
      sample_rate := 24000,
      protocol := P.I2S_PROTOCOL_LEFT_JUSTIFIED,
      channel_slot_mask := P.I2S_CHANNEL_SLOT_MASK 0,
      audio_depth := P.I2S_AUDIO_DEPTH_16_BITS,
      master_mode := true }
  let hpm_audio : hpm_i2s :=
    { hpm_audio with
      transfer := transfer,
      audio_config := { samplerate := 24000, samplebits := 16, channels := 1 } }
  let success := P.i2s_config_transfer trace hpm_audio.base mclk_hz transfer
  let m1 : Machine :=
    { dev := hpm_audio,
      trace := trace ++ [.i2s_config_transfer hpm_audio.base mclk_hz transfer success] }
  if success = false then (-P.RT_ERROR, m1) else (P.RT_EOK, m1)

/-! ## Transfer engine -/

/-- The `data_width` chosen from the audio depth (lines 471-479). -/
def data_width (P : Platform) (hpm_audio : hpm_i2s) : Nat :=
  if hpm_audio.transfer.audio_depth = P.I2S_AUDIO_DEPTH_16_BITS
  then P.DMA_TRANSFER_WIDTH_HALF_WORD else P.DMA_TRANSFER_WIDTH_WORD

/-- The `data_shift_byte` chosen from the audio depth (lines 471-479). -/
def data_shift_byte (P : Platform) (hpm_audio : hpm_i2s) : Nat :=
  if hpm_audio.transfer.audio_depth = P.I2S_AUDIO_DEPTH_16_BITS then 2 else 0

/-- The `ch_config` built on the playback path (lines 483-494). The peripheral side address is
computed in 32-bit unsigned arithmetic. -/
def tx_ch_config (P : Platform) (hpm_audio : hpm_i2s) (writeBuf size : Nat) :
    dma_channel_config_t :=
  { P.dma_default_channel_config hpm_audio.tx_dma_resource.base with
    src_addr := P.core_local_mem_to_sys_address writeBuf,
    dst_addr := (P.TXD hpm_audio.base hpm_audio.transfer.data_line
                  + data_shift_byte P hpm_audio) % 2 ^ 32,
    src_width := data_width P hpm_audio,
    dst_width := data_width P hpm_audio,
    src_addr_ctrl := P.DMA_ADDRESS_CONTROL_INCREMENT,
    dst_addr_ctrl := P.DMA_ADDRESS_CONTROL_FIXED,
    size_in_byte := size,
    dst_mode := P.DMA_HANDSHAKE_MODE_HANDSHAKE,
    src_burst_size := P.DMA_NUM_TRANSFER_PER_BURST_1T }

/-- The `ch_config` built on the record path (lines 506-517). The peripheral side address is
computed in 32-bit unsigned arithmetic. -/
def rx_ch_config (P : Platform) (hpm_audio : hpm_i2s) (readBuf size : Nat) :
    dma_channel_config_t :=
  { P.dma_default_channel_config hpm_audio.rx_dma_resource.base with
    src_addr := (P.RXD hpm_audio.base hpm_audio.transfer.data_line
                  + data_shift_byte P hpm_audio) % 2 ^ 32,
    dst_addr := P.core_local_mem_to_sys_address readBuf,
    src_width := data_width P hpm_audio,
    dst_width := data_width P hpm_audio,
    src_addr_ctrl := P.DMA_ADDRESS_CONTROL_FIXED,
    dst_addr_ctrl := P.DMA_ADDRESS_CONTROL_INCREMENT,
    size_in_byte := size,
    src_mode := P.DMA_HANDSHAKE_MODE_HANDSHAKE,
    src_burst_size := P.DMA_NUM_TRANSFER_PER_BURST_1T }

/-- The function `hpm_i2s_transmit` (lines 465-531): the returned value and the machine
afterwards. `writeBuf` and `readBuf` are addresses, 0 for `NULL`. `return size` converts the
unsigned `size` to the signed return type. -/
def hpm_i2s_transmit (P : Platform) (m : Machine) (writeBuf readBuf size : Nat) :
    Int × Machine :=
  let hpm_audio := m.dev
  if writeBuf ≠ 0 then
    let dma_resource := hpm_audio.tx_dma_resource
    let ch_config := tx_ch_config P hpm_audio writeBuf size
    let trace :=
      if P.l1c_dc_is_enabled m.trace = true
      then m.trace ++ [.l1c_dc_writeback writeBuf size] else m.trace
    let success := P.dma_setup_channel trace dma_resource.base dma_resource.channel ch_config
    let trace := trace ++
      [.dma_setup_channel dma_resource.base dma_resource.channel ch_config success]
    if success = false then (-P.RT_ERROR, { m with trace := trace })
    else (signed32 size, { m with trace := trace })
  else if readBuf ≠ 0 then
    let dma_resource := hpm_audio.rx_dma_resource
    let ch_config := rx_ch_config P hpm_audio readBuf size
    let success := P.dma_setup_channel m.trace dma_resource.base dma_resource.channel ch_config
    let trace := m.trace ++
      [.dma_setup_channel dma_resource.base dma_resource.channel ch_config success]
    if success = false then (-P.RT_ERROR, { m with trace := trace })
    else
      let trace :=
        if P.l1c_dc_is_enabled trace = true
        then trace ++ [.l1c_dc_invalidate readBuf size] else trace
      (signed32 size, { m with trace := trace })
  else (signed32 size, m)

/-! ## Completion callbacks -/

/-- The function `i2s_tx_dma_callback` (lines 111-117), entered with `user_data` pointing at
the device. Its entry is recorded as the completion event. -/
def i2s_tx_dma_callback (P : Platform) (m : Machine) (int_stat : Nat) : Machine :=
  let m : Machine := { m with trace := m.trace ++ [.dma_callback .tx int_stat] }
  if int_stat = P.DMA_CHANNEL_STATUS_TC then
    { m with trace := m.trace ++ [.rt_audio_tx_complete] }
  else m

/-- The function `i2s_rx_dma_callback` (lines 120-127), entered with `user_data` pointing at
the device. Its entry is recorded as the completion event. -/
def i2s_rx_dma_callback (P : Platform) (m : Machine) (int_stat : Nat) : Machine :=
  let m : Machine := { m with trace := m.trace ++ [.dma_callback .rx int_stat] }
  if int_stat = P.DMA_CHANNEL_STATUS_TC then
    let m : Machine :=
      { m with trace := m.trace ++ [.rt_audio_rx_done m.dev.rx_buff P.I2S_FIFO_SIZE] }
    (hpm_i2s_transmit P m 0 m.dev.rx_buff P.I2S_FIFO_SIZE).2
  else m

/-! ## Start and stop -/

/-- The function `hpm_i2s_start` (lines 403-444). A request that is not granted leaves the
resource slot as it was. `dmamux_ch` is an 8-bit variable. -/
def hpm_i2s_start (P : Platform) (m : Machine) (stream : Stream) : Int × Machine :=
  let hpm_audio := m.dev
  match stream with
  | .AUDIO_STREAM_REPLAY =>
    match P.dma_manager_request_resource m.trace with
    | some r =>
      let dmamux_ch := P.DMA_SOC_CHN_TO_DMAMUX_CHN r.base r.channel % 256
      let m1 : Machine :=
        { dev := { hpm_audio with tx_dma_resource := r },
          trace := m.trace ++
            [.dma_manager_request_resource .tx (some r),
             .dma_manager_install_interrupt_callback r .tx,
             .dma_manager_enable_dma_interrupt r 1,
             .dmamux_config dmamux_ch hpm_audio.tx_dma_req true,
             .rt_audio_tx_complete] }
      (P.RT_EOK, m1)
    | none =>
      (-P.RT_ERROR, { m with trace := m.trace ++ [.dma_manager_request_resource .tx none] })
  | .AUDIO_STREAM_RECORD =>
    match P.dma_manager_request_resource m.trace with
    | some r =>
      let dmamux_ch := P.DMA_SOC_CHN_TO_DMAMUX_CHN r.base r.channel % 256
      let m1 : Machine :=
        { dev := { hpm_audio with rx_dma_resource := r },
          trace := m.trace ++
            [.dma_manager_request_resource .rx (some r),
             .dma_manager_install_interrupt_callback r .rx,
             .dma_manager_enable_dma_interrupt r 1,
             .dmamux_config dmamux_ch hpm_audio.rx_dma_req true] }
      let r2 := hpm_i2s_transmit P m1 0 hpm_audio.rx_buff P.I2S_FIFO_SIZE
      if P.RT_EOK ≠ r2.1 then (-P.RT_ERROR, r2.2) else (P.RT_EOK, r2.2)
    | none =>
      (-P.RT_ERROR, { m with trace := m.trace ++ [.dma_manager_request_resource .rx none] })
  | .other => (-P.RT_ERROR, m)

/-- The function `hpm_i2s_stop` (lines 446-463). -/
def hpm_i2s_stop (P : Platform) (m : Machine) (stream : Stream) : Int × Machine :=
  match stream with
  | .AUDIO_STREAM_REPLAY =>
    (P.RT_EOK, { m with trace := m.trace ++
      [.dma_manager_release_resource .tx m.dev.tx_dma_resource] })
  | .AUDIO_STREAM_RECORD =>
    (P.RT_EOK, { m with trace := m.trace ++
      [.dma_manager_release_resource .rx m.dev.rx_dma_resource] })
  | .other => (-P.RT_ERROR, m)

/-! ## Buffer description -/

/-- The fields of `struct rt_audio_buf_info`. -/
structure rt_audio_buf_info where
  buffer : Nat
  total_size : Nat
  block_size : Nat
  block_count : Nat
  deriving DecidableEq, Repr

/-- The function `hpm_i2s_buffer_info` (lines 533-548). -/
def hpm_i2s_buffer_info (P : Platform) (hpm_audio : hpm_i2s) : rt_audio_buf_info :=
  { buffer := hpm_audio.tx_buff,
    total_size := P.I2S_FIFO_SIZE,
    block_size := P.I2S_FIFO_SIZE / 2,
    block_count := 2 }

/-! ## Reading a trace -/

/-- The calls made between two points of a run. -/
def emitted (before after : Machine) : List Event :=
  after.trace.drop before.trace.length

/-- The descriptors programmed into the DMA engine by the calls of a trace, oldest first:
engine, channel, descriptor and whether the engine accepted it. -/
def programmed : List Event → List (Nat × Nat × dma_channel_config_t × Bool)
  | [] => []
  | .dma_setup_channel base channel config success :: es =>
    (base, channel, config, success) :: programmed es
  | _ :: es => programmed es

/-- The ordering asked of a record run, checked on its calls oldest first: no
`l1c_dc_invalidate` is made while a descriptor accepted by the DMA engine is in flight, that
is after it was programmed and before the record callback is entered with the
transfer-complete status `tc`. The flag tells whether a descriptor is in flight at the start
of the list. -/
def no_invalidate_in_flight (tc : Nat) : Bool → List Event → Bool
  | _, [] => true
  | _, .dma_setup_channel _ _ _ true :: es => no_invalidate_in_flight tc true es
  | in_flight, .dma_callback .rx int_stat :: es =>
    no_invalidate_in_flight tc (if int_stat = tc then false else in_flight) es
  | in_flight, .l1c_dc_invalidate _ _ :: es =>
    !in_flight && no_invalidate_in_flight tc in_flight es
  | in_flight, _ :: es => no_invalidate_in_flight tc in_flight es

/-- The acquire count of a trace: the calls of `dma_manager_request_resource` in it that were
granted a channel. -/
def acquire_count : List Event → Nat
  | [] => 0
  | .dma_manager_request_resource _ (some _) :: es => acquire_count es + 1
  | _ :: es => acquire_count es

/-- The release count of a trace: the calls of `dma_manager_release_resource` in it. -/
def release_count : List Event → Nat
  | [] => 0
  | .dma_manager_release_resource _ _ :: es => release_count es + 1
  | _ :: es => release_count es

/-! ## A concrete platform and device

Example values for the constants and all-accepting collaborators, used to run the model on
concrete inputs. The general theorems below hold for every `Platform` that meets their
hypotheses. -/

/-- An example platform: 32-bit SoC, assertions compiled in, data cache enabled, a DMA
manager that always grants channel 0, a DMA engine and a peripheral that accept everything,
and no address translation. -/
def board : Platform where
  RT_EOK := 0
  RT_ERROR := 1
  NDEBUG := false
  I2S_FIFO_SIZE := 2048
  i2s_mono_left := 0
  i2s_mono_right := 1
  I2S_AUDIO_DEPTH_16_BITS := 0
  I2S_PROTOCOL_LEFT_JUSTIFIED := 2
  DMA_TRANSFER_WIDTH_HALF_WORD := 1
  DMA_TRANSFER_WIDTH_WORD := 2
  DMA_ADDRESS_CONTROL_INCREMENT := 0
  DMA_ADDRESS_CONTROL_FIXED := 2
  DMA_HANDSHAKE_MODE_HANDSHAKE := 1
  DMA_NUM_TRANSFER_PER_BURST_1T := 0
  DMA_CHANNEL_STATUS_TC := 8
  I2S_CHANNEL_SLOT_MASK := fun x => 1 <<< x
  TXD := fun base i => base + 64 + 4 * i
  RXD := fun base i => base + 48 + 4 * i
  DMA_SOC_CHN_TO_DMAMUX_CHN := fun _ channel => channel
  core_local_mem_to_sys_address := fun a => a
  dma_default_channel_config := fun _ =>
    { src_addr := 0, dst_addr := 0, src_width := 0, dst_width := 0, src_addr_ctrl := 0,
      dst_addr_ctrl := 0, size_in_byte := 0, src_mode := 0, dst_mode := 0,
      src_burst_size := 0 }
  i2s_get_default_config := fun _ =>
    { enable_mclk_out := false, frame_start_at_rising_edge := false }
  i2s_get_default_transfer_config :=
    { sample_rate := 48000, protocol := 0, channel_slot_mask := 3, audio_depth := 2,
      master_mode := true, data_line := 0 }
  clock_get_frequency := fun _ _ => 24576000
  i2s_config_transfer := fun _ _ _ _ => true
  dma_manager_request_resource := fun _ => some { base := 4027318272, channel := 0 }
  dma_setup_channel := fun _ _ _ _ => true
  l1c_dc_is_enabled := fun _ => true

/-- The example platform with a peripheral that rejects every transfer configuration. -/
def board_rejecting_transfer : Platform :=
  { board with i2s_config_transfer := fun _ _ _ _ => false }

/-- The example platform with assertions compiled out. -/
def board_ndebug : Platform :=
  { board with NDEBUG := true }

/-- The example platform with a peripheral that rejects sample rates above 96000 Hz. -/
def board_limited : Platform :=
  { board with i2s_config_transfer := fun _ _ _ t => decide (t.sample_rate ≤ 96000) }

/-- An entry of the table `hpm_i2s_set` before `hpm_i2s_init`: the named fields are set, the
others are zero. -/
def hpm_i2s_set_0 : hpm_i2s where
  audio_config := { samplerate := 0, channels := 0, samplebits := 0 }
  rx_dma_resource := { base := 0, channel := 0 }
  tx_dma_resource := { base := 0, channel := 0 }
  base := 4027580416
  clk_name := 7
  transfer := { sample_rate := 0, protocol := 0, channel_slot_mask := 0, audio_depth := 0,
                master_mode := false, data_line := 0 }
  rx_dma_req := 20
  tx_dma_req := 21
  tx_buff := 17301504
  rx_buff := 17303552

/-- The device after `hpm_i2s_init` on the example platform, with the calls made by it. -/
def booted : Machine :=
  (hpm_i2s_init board { dev := hpm_i2s_set_0, trace := [] }).2

/-- The initialised example device after `hpm_i2s_configure` was asked, in the output
direction, for the whole format 24000 Hz, mono left, 16 bits. -/
def configured_mono_left_16 : Machine :=
  (hpm_i2s_configure board booted
    { main_type := .AUDIO_TYPE_OUTPUT, sub_type := .AUDIO_DSP_PARAM,
      config := { samplerate := 24000, channels := board.i2s_mono_left, samplebits := 16 },
      value := 0 }).machine

/-! ## Helper lemmas on `hpm_i2s_configure` -/

theorem channel_slot_mask_of_accepted (P : Platform) (ch : Nat)
    (h : ch = P.i2s_mono_left ∨ ch = P.i2s_mono_right ∨ ch = 2) :
    ∃ mask, channel_slot_mask_of P ch = some mask := by
  unfold channel_slot_mask_of
  split_ifs with h1 h2 h3
  · exact ⟨_, rfl⟩
  · exact ⟨_, rfl⟩
  · exact ⟨_, rfl⟩
  · rcases h with h | h | h <;> contradiction

theorem channel_slot_mask_of_rejected (P : Platform) (ch : Nat)
    (h1 : ch ≠ P.i2s_mono_left) (h2 : ch ≠ P.i2s_mono_right) (h3 : ch ≠ 2) :
    channel_slot_mask_of P ch = none := by
  simp [channel_slot_mask_of, h1, h2, h3]

/-- With an accepted channel count and 16 or 32 sample bits in the stored format,
`hpm_i2s_configure` runs to its last line: it returns `result`, keeps the stored format and
recomputes the audio depth from the sample bits. -/
theorem hpm_i2s_configure_valid (P : Platform) (m : Machine) (caps : rt_audio_caps)
    (hch : ∃ mask, channel_slot_mask_of P
      (configure_store P m.dev caps).2.audio_config.channels = some mask)
    (hbits : (configure_store P m.dev caps).2.audio_config.samplebits = 16 ∨
      (configure_store P m.dev caps).2.audio_config.samplebits = 32) :
    ∃ m1, hpm_i2s_configure P m caps = .ret (configure_store P m.dev caps).1 m1 ∧
      m1.dev.audio_config = (configure_store P m.dev caps).2.audio_config ∧
      m1.dev.transfer.audio_depth =
        audio_depth_of (configure_store P m.dev caps).2.audio_config.samplebits ∧
      m1.dev.transfer.data_line = (configure_store P m.dev caps).2.transfer.data_line ∧
      m1.dev.base = m.dev.base ∧
      m1.dev.tx_dma_resource = m.dev.tx_dma_resource ∧
      m1.dev.rx_dma_resource = m.dev.rx_dma_resource := by
  obtain ⟨mask, hmask⟩ := hch
  have hb : ¬ (P.NDEBUG = false ∧
      ¬ ((configure_store P m.dev caps).2.audio_config.samplebits = 16 ∨
        (configure_store P m.dev caps).2.audio_config.samplebits = 32)) := by
    intro h; exact h.2 hbits
  have hbase : (configure_store P m.dev caps).2.base = m.dev.base ∧
      (configure_store P m.dev caps).2.tx_dma_resource = m.dev.tx_dma_resource ∧
      (configure_store P m.dev caps).2.rx_dma_resource = m.dev.rx_dma_resource := by
    cases hm : caps.main_type <;> cases hs : caps.sub_type <;>
      simp [configure_store, hm, hs]
  unfold hpm_i2s_configure
  simp only [hmask]
  rw [if_neg hb]
  exact ⟨_, rfl, rfl, rfl, rfl, hbase.1, hbase.2.1, hbase.2.2⟩


/-- Whatever way `hpm_i2s_configure` ends, the format it leaves in `audio_config` is the
stored one. -/
theorem hpm_i2s_configure_audio_config (P : Platform) (m : Machine) (caps : rt_audio_caps) :
    (hpm_i2s_configure P m caps).machine.dev.audio_config =
      (configure_store P m.dev caps).2.audio_config := by
  cases hmask : channel_slot_mask_of P (configure_store P m.dev caps).2.audio_config.channels with
  | none =>
    unfold hpm_i2s_configure
    simp only [hmask]
    rfl
  | some mask =>
    unfold hpm_i2s_configure
    simp only [hmask]
    split_ifs <;> rfl

/-- With 16 or 32 sample bits in the stored format `hpm_i2s_configure` returns: with
`-RT_ERROR` when the stored channel count is not accepted, with `result` otherwise. -/
theorem hpm_i2s_configure_returns (P : Platform) (m : Machine) (caps : rt_audio_caps)
    (hbits : (configure_store P m.dev caps).2.audio_config.samplebits = 16 ∨
      (configure_store P m.dev caps).2.audio_config.samplebits = 32) :
    ∃ r1 m1, hpm_i2s_configure P m caps = .ret r1 m1 ∧
      (channel_slot_mask_of P (configure_store P m.dev caps).2.audio_config.channels ≠ none →
        r1 = (configure_store P m.dev caps).1) ∧
      (channel_slot_mask_of P (configure_store P m.dev caps).2.audio_config.channels = none →
        r1 = -P.RT_ERROR) := by
  cases hmask : channel_slot_mask_of P (configure_store P m.dev caps).2.audio_config.channels with
  | none =>
    refine ⟨-P.RT_ERROR, { m with dev := (configure_store P m.dev caps).2 }, ?_, ?_, ?_⟩
    · unfold hpm_i2s_configure
      simp only [hmask]
    · intro h; exact absurd rfl h
    · intro _; rfl
  | some mask =>
    obtain ⟨m1, h1, _⟩ := hpm_i2s_configure_valid P m caps ⟨mask, hmask⟩ hbits
    exact ⟨_, m1, h1, fun _ => rfl, fun h => by simp at h⟩

theorem reads_back_of_audio_config (P : Platform) (dev : hpm_i2s) (dir : MainType)
    (g : rt_audio_caps) (bits ch : Nat) (hdir : dir ≠ .other)
    (hb : dev.audio_config.samplebits = bits) (hc : dev.audio_config.channels = ch) :
    reads_back P dev dir g bits ch := by
  cases dir with
  | other => exact absurd rfl hdir
  | AUDIO_TYPE_INPUT => simp [reads_back, hpm_i2s_getcaps, hb, hc]
  | AUDIO_TYPE_OUTPUT => simp [reads_back, hpm_i2s_getcaps, hb, hc]

theorem configure_store_param (P : Platform) (dev : hpm_i2s) (dir : MainType)
    (cfg : rt_audio_configure) (value : Int) (hdir : dir ≠ .other) :
    configure_store P dev
      { main_type := dir, sub_type := .AUDIO_DSP_PARAM, config := cfg, value := value } =
    (P.RT_EOK, { dev with audio_config := cfg }) := by
  cases dir with
  | other => exact absurd rfl hdir
  | AUDIO_TYPE_INPUT => rfl
  | AUDIO_TYPE_OUTPUT => rfl

theorem configure_store_samplebits (P : Platform) (dev : hpm_i2s) (dir : MainType)
    (cfg : rt_audio_configure) (value : Int) (hdir : dir ≠ .other) :
    configure_store P dev
      { main_type := dir, sub_type := .AUDIO_DSP_SAMPLEBITS, config := cfg, value := value } =
    (P.RT_EOK,
      { dev with audio_config := { dev.audio_config with samplebits := cfg.samplebits } }) := by
  cases dir with
  | other => exact absurd rfl hdir
  | AUDIO_TYPE_INPUT => rfl
  | AUDIO_TYPE_OUTPUT => rfl

theorem configure_store_channels (P : Platform) (dev : hpm_i2s) (dir : MainType)
    (cfg : rt_audio_configure) (value : Int) (hdir : dir ≠ .other) :
    configure_store P dev
      { main_type := dir, sub_type := .AUDIO_DSP_CHANNELS, config := cfg, value := value } =
    (P.RT_EOK,
      { dev with audio_config := { dev.audio_config with channels := cfg.channels } }) := by
  cases dir with
  | other => exact absurd rfl hdir
  | AUDIO_TYPE_INPUT => rfl
  | AUDIO_TYPE_OUTPUT => rfl

theorem channel_slot_mask_of_one_or_two (P : Platform) (ch : Nat) (hch : ch = 1 ∨ ch = 2)
    (hmono : P.i2s_mono_left = 1 ∨ P.i2s_mono_right = 1) :
    ∃ mask, channel_slot_mask_of P ch = some mask := by
  apply channel_slot_mask_of_accepted
  rcases hch with h | h
  · rcases hmono with h1 | h1
    · exact Or.inl (by rw [h, h1])
    · exact Or.inr (Or.inl (by rw [h, h1]))
  · exact Or.inr (Or.inr h)

/-- A stored channel count that is not accepted ends `hpm_i2s_configure` with `-RT_ERROR`
right after the stores. -/
theorem hpm_i2s_configure_reject (P : Platform) (m : Machine) (caps : rt_audio_caps)
    (hnone : channel_slot_mask_of P
      (configure_store P m.dev caps).2.audio_config.channels = none) :
    hpm_i2s_configure P m caps =
      .ret (-P.RT_ERROR) { m with dev := (configure_store P m.dev caps).2 } := by
  unfold hpm_i2s_configure
  simp only [hnone]

/-- With assertions compiled in, an accepted channel count and stored sample bits other than
16 and 32, `hpm_i2s_configure` stops in `assert` after it has recomputed `channel_slot_mask`
and `sample_rate`. -/
theorem hpm_i2s_configure_assert (P : Platform) (m : Machine) (caps : rt_audio_caps)
    (mask : Nat)
    (hmask : channel_slot_mask_of P
      (configure_store P m.dev caps).2.audio_config.channels = some mask)
    (h16 : (configure_store P m.dev caps).2.audio_config.samplebits ≠ 16)
    (h32 : (configure_store P m.dev caps).2.audio_config.samplebits ≠ 32)
    (hassert : P.NDEBUG = false) :
    hpm_i2s_configure P m caps =
      .assert_failed { m with dev := { (configure_store P m.dev caps).2 with transfer :=
        { (configure_store P m.dev caps).2.transfer with
          channel_slot_mask := mask,
          sample_rate := (configure_store P m.dev caps).2.audio_config.samplerate } } } := by
  have hb : P.NDEBUG = false ∧
      ¬ ((configure_store P m.dev caps).2.audio_config.samplebits = 16 ∨
        (configure_store P m.dev caps).2.audio_config.samplebits = 32) :=
    ⟨hassert, fun h => h.elim h16 h32⟩
  unfold hpm_i2s_configure
  simp only [hmask]
  rw [if_pos hb]

/-! ## The claims -/

/-- C1, as amended: for every device state, every direction and every pair of 16 or 32 sample
bits with 1 or 2 channels (1 being one of the two mono channel codes of the platform):
the whole-format write `AUDIO_DSP_PARAM` returns `RT_EOK`. Written as `AUDIO_DSP_SAMPLEBITS`
then `AUDIO_DSP_CHANNELS`, the first write returns `RT_EOK` when the channel count held by
the device is accepted and `-RT_ERROR` when it is not, and the second write returns `RT_EOK`.
Written as `AUDIO_DSP_CHANNELS` then `AUDIO_DSP_SAMPLEBITS`, the first write returns `RT_EOK`
when the sample bits held by the device are 16 or 32 and stops in the assertion when they
are not and assertions are compiled in, and whenever it returns, the second write returns
`RT_EOK`. In each case, after the pair is written `hpm_i2s_getcaps`, in either direction,
returns `RT_EOK` and yields exactly the written sample bits and channel count, asked as whole
format or as single fields. -/
theorem configure_getcaps_roundtrip (P : Platform) (m : Machine) (dir gdir : MainType)
    (samplerate : Nat) (c1 c2 : rt_audio_configure) (value : Int) (g : rt_audio_caps)
    (bits ch : Nat)
    (hdir : dir ≠ .other) (hgdir : gdir ≠ .other)
    (hbits : bits = 16 ∨ bits = 32) (hch : ch = 1 ∨ ch = 2)
    (hmono : P.i2s_mono_left = 1 ∨ P.i2s_mono_right = 1) :
    (∃ m1,
      hpm_i2s_configure P m
        { main_type := dir, sub_type := .AUDIO_DSP_PARAM,
          config := { samplerate := samplerate, channels := ch, samplebits := bits },
          value := value } = .ret P.RT_EOK m1 ∧
      reads_back P m1.dev gdir g bits ch) ∧
    (∃ r1 m1 m2,
      hpm_i2s_configure P m
        { main_type := dir, sub_type := .AUDIO_DSP_SAMPLEBITS,
          config := { c1 with samplebits := bits }, value := value } = .ret r1 m1 ∧
      (channel_slot_mask_of P m.dev.audio_config.channels ≠ none → r1 = P.RT_EOK) ∧
      (channel_slot_mask_of P m.dev.audio_config.channels = none → r1 = -P.RT_ERROR) ∧
      hpm_i2s_configure P m1
        { main_type := dir, sub_type := .AUDIO_DSP_CHANNELS,
          config := { c2 with channels := ch }, value := value } = .ret P.RT_EOK m2 ∧
      reads_back P m2.dev gdir g bits ch) ∧
    (∀ r1 m1,
      hpm_i2s_configure P m
        { main_type := dir, sub_type := .AUDIO_DSP_CHANNELS,
          config := { c2 with channels := ch }, value := value } = .ret r1 m1 →
      ∃ m2,
        hpm_i2s_configure P m1
          { main_type := dir, sub_type := .AUDIO_DSP_SAMPLEBITS,
            config := { c1 with samplebits := bits }, value := value } = .ret P.RT_EOK m2 ∧
        reads_back P m2.dev gdir g bits ch) ∧
    (m.dev.audio_config.samplebits = 16 ∨ m.dev.audio_config.samplebits = 32 →
      ∃ m1,
        hpm_i2s_configure P m
          { main_type := dir, sub_type := .AUDIO_DSP_CHANNELS,
            config := { c2 with channels := ch }, value := value } = .ret P.RT_EOK m1) ∧
    (P.NDEBUG = false →
      m.dev.audio_config.samplebits ≠ 16 → m.dev.audio_config.samplebits ≠ 32 →
      (hpm_i2s_configure P m
        { main_type := dir, sub_type := .AUDIO_DSP_CHANNELS,
          config := { c2 with channels := ch }, value := value }).returned = none) := by
  have hmask := channel_slot_mask_of_one_or_two P ch hch hmono
  refine ⟨?_, ?_, ?_, ?_, ?_⟩
  · obtain ⟨m1, h1, hcfg, _⟩ := hpm_i2s_configure_valid P m
      { main_type := dir, sub_type := .AUDIO_DSP_PARAM,
        config := { samplerate := samplerate, channels := ch, samplebits := bits },
        value := value }
      (by rw [configure_store_param P m.dev dir _ value hdir]; exact hmask)
      (by rw [configure_store_param P m.dev dir _ value hdir]; exact hbits)
    rw [configure_store_param P m.dev dir _ value hdir] at h1 hcfg
    refine ⟨m1, h1, reads_back_of_audio_config P m1.dev gdir g bits ch hgdir ?_ ?_⟩
    · rw [hcfg]
    · rw [hcfg]
  · obtain ⟨r1, m1, h1, hr1, hr1n⟩ := hpm_i2s_configure_returns P m
      { main_type := dir, sub_type := .AUDIO_DSP_SAMPLEBITS,
        config := { c1 with samplebits := bits }, value := value }
      (by rw [configure_store_samplebits P m.dev dir _ value hdir]; exact hbits)
    have hcfg1 := hpm_i2s_configure_audio_config P m
      { main_type := dir, sub_type := .AUDIO_DSP_SAMPLEBITS,
        config := { c1 with samplebits := bits }, value := value }
    rw [h1, configure_store_samplebits P m.dev dir _ value hdir] at hcfg1
    rw [configure_store_samplebits P m.dev dir _ value hdir] at hr1 hr1n
    have hcfg1 : m1.dev.audio_config = { m.dev.audio_config with samplebits := bits } := hcfg1
    obtain ⟨m2, h2, hcfg2, _⟩ := hpm_i2s_configure_valid P m1
      { main_type := dir, sub_type := .AUDIO_DSP_CHANNELS,
        config := { c2 with channels := ch }, value := value }
      (by rw [configure_store_channels P m1.dev dir _ value hdir]; exact hmask)
      (by rw [configure_store_channels P m1.dev dir _ value hdir, hcfg1]; exact hbits)
    rw [configure_store_channels P m1.dev dir _ value hdir] at h2 hcfg2
    refine ⟨r1, m1, m2, h1, hr1, hr1n, h2,
      reads_back_of_audio_config P m2.dev gdir g bits ch hgdir ?_ ?_⟩
    · rw [hcfg2]; show m1.dev.audio_config.samplebits = bits; rw [hcfg1]
    · rw [hcfg2]
  · intro r1 m1 h1
    have hcfg1 := hpm_i2s_configure_audio_config P m
      { main_type := dir, sub_type := .AUDIO_DSP_CHANNELS,
        config := { c2 with channels := ch }, value := value }
    rw [h1, configure_store_channels P m.dev dir _ value hdir] at hcfg1
    have hcfg1 : m1.dev.audio_config = { m.dev.audio_config with channels := ch } := hcfg1
    obtain ⟨m2, h2, hcfg2, _⟩ := hpm_i2s_configure_valid P m1
      { main_type := dir, sub_type := .AUDIO_DSP_SAMPLEBITS,
        config := { c1 with samplebits := bits }, value := value }
      (by rw [configure_store_samplebits P m1.dev dir _ value hdir, hcfg1]; exact hmask)
      (by rw [configure_store_samplebits P m1.dev dir _ value hdir]; exact hbits)
    rw [configure_store_samplebits P m1.dev dir _ value hdir] at h2 hcfg2
    refine ⟨m2, h2, reads_back_of_audio_config P m2.dev gdir g bits ch hgdir ?_ ?_⟩
    · rw [hcfg2]
    · rw [hcfg2]; show m1.dev.audio_config.channels = ch; rw [hcfg1]
  · intro hold
    obtain ⟨m1, h1, _⟩ := hpm_i2s_configure_valid P m
      { main_type := dir, sub_type := .AUDIO_DSP_CHANNELS,
        config := { c2 with channels := ch }, value := value }
      (by rw [configure_store_channels P m.dev dir _ value hdir]; exact hmask)
      (by rw [configure_store_channels P m.dev dir _ value hdir]; exact hold)
    rw [configure_store_channels P m.dev dir _ value hdir] at h1
    exact ⟨m1, h1⟩
  · intro hassert h16 h32
    obtain ⟨mask, hm⟩ := hmask
    rw [hpm_i2s_configure_assert P m _ mask
      (by rw [configure_store_channels P m.dev dir _ value hdir]; exact hm)
      (by rw [configure_store_channels P m.dev dir _ value hdir]; exact h16)
      (by rw [configure_store_channels P m.dev dir _ value hdir]; exact h32) hassert]
    rfl

/-- Witness for C1 as amended, on the example platform: after its initialisation the device
takes the whole-format write of 16 bits and 1 channel in the output direction, and the input
direction reads the pair back. -/
theorem configure_getcaps_roundtrip_witness :
    (board.i2s_mono_left = 1 ∨ board.i2s_mono_right = 1) ∧
    ∃ m1,
      hpm_i2s_configure board booted
        { main_type := .AUDIO_TYPE_OUTPUT, sub_type := .AUDIO_DSP_PARAM,
          config := { samplerate := 48000, channels := 1, samplebits := 16 },
          value := 0 } = .ret board.RT_EOK m1 ∧
      reads_back board m1.dev .AUDIO_TYPE_INPUT
        { main_type := .other, sub_type := .other,
          config := { samplerate := 0, channels := 0, samplebits := 0 }, value := 0 } 16 1 :=
  ⟨by decide,
   (configure_getcaps_roundtrip board booted .AUDIO_TYPE_OUTPUT .AUDIO_TYPE_INPUT 48000
      { samplerate := 0, channels := 0, samplebits := 0 }
      { samplerate := 0, channels := 0, samplebits := 0 } 0
      { main_type := .other, sub_type := .other,
        config := { samplerate := 0, channels := 0, samplebits := 0 }, value := 0 } 16 1
      (by decide) (by decide) (by decide) (by decide) (by decide)).1⟩

/-- C1, counterexample: on the example platform the initialised device (24000 Hz, 1 channel,
16 bits) is asked for 7 channels, which is rejected with `-RT_ERROR` and leaves 7 in
`audio_config.channels`. The single-field write of 32 sample bits that follows returns
`-RT_ERROR`, not `RT_EOK`, although 32 bits is a valid value; the sample bits are stored and
read back all the same. From a device that holds 24 sample bits, the single-field write of
2 channels does not return: it stops in the assertion. -/
theorem configure_single_field_counterexample :
    (hpm_i2s_configure board booted
      { main_type := .AUDIO_TYPE_OUTPUT, sub_type := .AUDIO_DSP_CHANNELS,
        config := { samplerate := 0, channels := 7, samplebits := 0 }, value := 0 }
      ).returned = some (-board.RT_ERROR) ∧
    (hpm_i2s_configure board booted
      { main_type := .AUDIO_TYPE_OUTPUT, sub_type := .AUDIO_DSP_CHANNELS,
        config := { samplerate := 0, channels := 7, samplebits := 0 }, value := 0 }
      ).machine.dev.audio_config = { samplerate := 24000, channels := 7, samplebits := 16 } ∧
    (hpm_i2s_configure board
      (hpm_i2s_configure board booted
        { main_type := .AUDIO_TYPE_OUTPUT, sub_type := .AUDIO_DSP_CHANNELS,
          config := { samplerate := 0, channels := 7, samplebits := 0 }, value := 0 }
        ).machine
      { main_type := .AUDIO_TYPE_OUTPUT, sub_type := .AUDIO_DSP_SAMPLEBITS,
        config := { samplerate := 0, channels := 0, samplebits := 32 }, value := 0 }
      ).returned = some (-board.RT_ERROR) ∧
    (hpm_i2s_configure board
      (hpm_i2s_configure board booted
        { main_type := .AUDIO_TYPE_OUTPUT, sub_type := .AUDIO_DSP_CHANNELS,
          config := { samplerate := 0, channels := 7, samplebits := 0 }, value := 0 }
        ).machine
      { main_type := .AUDIO_TYPE_OUTPUT, sub_type := .AUDIO_DSP_SAMPLEBITS,
        config := { samplerate := 0, channels := 0, samplebits := 32 }, value := 0 }
      ).machine.dev.audio_config = { samplerate := 24000, channels := 7, samplebits := 32 } ∧
    board.RT_EOK ≠ -board.RT_ERROR ∧
    (hpm_i2s_configure board
      { booted with dev := { booted.dev with
          audio_config := { samplerate := 24000, channels := 1, samplebits := 24 } } }
      { main_type := .AUDIO_TYPE_OUTPUT, sub_type := .AUDIO_DSP_CHANNELS,
        config := { samplerate := 0, channels := 2, samplebits := 0 }, value := 0 }
      ).returned = none := by
  decide

/-- C2, as amended: for every device state, either direction and every sample bits value
other than 16 and 32, `hpm_i2s_configure` asked to write it with assertions compiled in
stores it before it validates anything: after `AUDIO_DSP_SAMPLEBITS` the `audio_config` is
the old one with the new sample bits, after `AUDIO_DSP_PARAM` it is the requested sample
rate, channel count and sample bits. The call leaves `audio_depth` as it was and calls no
collaborator; it returns `-RT_ERROR`, with the whole transfer configuration unchanged,
exactly when the channel count then in `audio_config` is not accepted, and otherwise it does
not return: it stops in the assertion on the sample bits after recomputing
`channel_slot_mask` and `sample_rate`. -/
theorem configure_invalid_samplebits (P : Platform) (m : Machine) (dir : MainType)
    (sub : SubType) (cfg : rt_audio_configure) (value : Int)
    (hdir : dir ≠ .other)
    (hsub : sub = .AUDIO_DSP_SAMPLEBITS ∨ sub = .AUDIO_DSP_PARAM)
    (h16 : cfg.samplebits ≠ 16) (h32 : cfg.samplebits ≠ 32)
    (hassert : P.NDEBUG = false) :
    (sub = .AUDIO_DSP_SAMPLEBITS →
      (hpm_i2s_configure P m
        { main_type := dir, sub_type := sub, config := cfg, value := value }
        ).machine.dev.audio_config =
        { m.dev.audio_config with samplebits := cfg.samplebits }) ∧
    (sub = .AUDIO_DSP_PARAM →
      (hpm_i2s_configure P m
        { main_type := dir, sub_type := sub, config := cfg, value := value }
        ).machine.dev.audio_config = cfg) ∧
    (hpm_i2s_configure P m
      { main_type := dir, sub_type := sub, config := cfg, value := value }
      ).machine.dev.transfer.audio_depth = m.dev.transfer.audio_depth ∧
    (hpm_i2s_configure P m
      { main_type := dir, sub_type := sub, config := cfg, value := value }
      ).machine.trace = m.trace ∧
    (channel_slot_mask_of P (hpm_i2s_configure P m
        { main_type := dir, sub_type := sub, config := cfg, value := value }
        ).machine.dev.audio_config.channels = none →
      (hpm_i2s_configure P m
        { main_type := dir, sub_type := sub, config := cfg, value := value }
        ).returned = some (-P.RT_ERROR) ∧
      (hpm_i2s_configure P m
        { main_type := dir, sub_type := sub, config := cfg, value := value }
        ).machine.dev.transfer = m.dev.transfer) ∧
    (∀ mask, channel_slot_mask_of P (hpm_i2s_configure P m
        { main_type := dir, sub_type := sub, config := cfg, value := value }
        ).machine.dev.audio_config.channels = some mask →
      (hpm_i2s_configure P m
        { main_type := dir, sub_type := sub, config := cfg, value := value }
        ).returned = none ∧
      (hpm_i2s_configure P m
        { main_type := dir, sub_type := sub, config := cfg, value := value }
        ).machine.dev.transfer =
        { m.dev.transfer with
          channel_slot_mask := mask,
          sample_rate := (hpm_i2s_configure P m
            { main_type := dir, sub_type := sub, config := cfg, value := value }
            ).machine.dev.audio_config.samplerate }) := by
  have hstore : (configure_store P m.dev
        { main_type := dir, sub_type := sub, config := cfg, value := value }
        ).2.audio_config.samplebits = cfg.samplebits ∧
      (configure_store P m.dev
        { main_type := dir, sub_type := sub, config := cfg, value := value }
        ).2.transfer = m.dev.transfer := by
    rcases hsub with h | h
    · subst h; rw [configure_store_samplebits P m.dev dir cfg value hdir]; exact ⟨rfl, rfl⟩
    · subst h; rw [configure_store_param P m.dev dir cfg value hdir]; exact ⟨rfl, rfl⟩
  have haud1 : sub = .AUDIO_DSP_SAMPLEBITS →
      (configure_store P m.dev
        { main_type := dir, sub_type := sub, config := cfg, value := value }
        ).2.audio_config = { m.dev.audio_config with samplebits := cfg.samplebits } := by
    intro h
    subst h
    rw [configure_store_samplebits P m.dev dir cfg value hdir]
  have haud2 : sub = .AUDIO_DSP_PARAM →
      (configure_store P m.dev
        { main_type := dir, sub_type := sub, config := cfg, value := value }
        ).2.audio_config = cfg := by
    intro h
    subst h
    rw [configure_store_param P m.dev dir cfg value hdir]
  obtain ⟨hsb, htr⟩ := hstore
  rw [hpm_i2s_configure_audio_config]
  cases hmask : channel_slot_mask_of P (configure_store P m.dev
      { main_type := dir, sub_type := sub, config := cfg, value := value }
      ).2.audio_config.channels with
  | none =>
    rw [hpm_i2s_configure_reject P m _ hmask]
    refine ⟨haud1, haud2, ?_, rfl, fun _ => ⟨rfl, htr⟩, fun mask h => by simp at h⟩
    show (configure_store P m.dev _).2.transfer.audio_depth = _
    rw [htr]
  | some mask =>
    rw [hpm_i2s_configure_assert P m _ mask hmask (by rw [hsb]; exact h16)
      (by rw [hsb]; exact h32) hassert]
    refine ⟨haud1, haud2, ?_, rfl, fun h => by simp at h, fun mask1 h => ⟨rfl, ?_⟩⟩
    · show (configure_store P m.dev _).2.transfer.audio_depth = _
      rw [htr]
    · have hm : mask = mask1 := by simpa using h
      subst hm
      show ({ (configure_store P m.dev _).2.transfer with
          channel_slot_mask := mask,
          sample_rate := (configure_store P m.dev _).2.audio_config.samplerate } :
          i2s_transfer_config_t) = _
      rw [htr]

/-- Witness for C2 as amended, on the example platform: the whole-format write of 48000 Hz,
2 channels and 24 sample bits leaves exactly these in `audio_config`. -/
theorem configure_invalid_samplebits_witness :
    board.NDEBUG = false ∧
    (hpm_i2s_configure board booted
      { main_type := .AUDIO_TYPE_OUTPUT, sub_type := .AUDIO_DSP_PARAM,
        config := { samplerate := 48000, channels := 2, samplebits := 24 }, value := 0 }
      ).machine.dev.audio_config =
      { samplerate := 48000, channels := 2, samplebits := 24 } :=
  ⟨rfl,
   (configure_invalid_samplebits board booted .AUDIO_TYPE_OUTPUT .AUDIO_DSP_PARAM
      { samplerate := 48000, channels := 2, samplebits := 24 } 0
      (by decide) (by decide) (by decide) (by decide) rfl).2.1 rfl⟩

/-- C2, counterexample: on the example platform the device after initialisation holds
24000 Hz, 1 channel, 16 bits. The whole-format write of 48000 Hz, 2 channels, 24 bits and the
single-field write of 24 bits do not return an error: they stop in the assertion, and with
assertions compiled out they return `RT_EOK`. In each case the new values are in
`audio_config` afterwards. -/
theorem configure_invalid_samplebits_counterexample :
    booted.dev.audio_config = { samplerate := 24000, channels := 1, samplebits := 16 } ∧
    (hpm_i2s_configure board booted
      { main_type := .AUDIO_TYPE_OUTPUT, sub_type := .AUDIO_DSP_PARAM,
        config := { samplerate := 48000, channels := 2, samplebits := 24 }, value := 0 }
      ).returned = none ∧
    (hpm_i2s_configure board booted
      { main_type := .AUDIO_TYPE_OUTPUT, sub_type := .AUDIO_DSP_PARAM,
        config := { samplerate := 48000, channels := 2, samplebits := 24 }, value := 0 }
      ).machine.dev.audio_config =
      { samplerate := 48000, channels := 2, samplebits := 24 } ∧
    (hpm_i2s_configure board booted
      { main_type := .AUDIO_TYPE_OUTPUT, sub_type := .AUDIO_DSP_SAMPLEBITS,
        config := { samplerate := 0, channels := 0, samplebits := 24 }, value := 0 }
      ).returned = none ∧
    (hpm_i2s_configure board booted
      { main_type := .AUDIO_TYPE_OUTPUT, sub_type := .AUDIO_DSP_SAMPLEBITS,
        config := { samplerate := 0, channels := 0, samplebits := 24 }, value := 0 }
      ).machine.dev.audio_config =
      { samplerate := 24000, channels := 1, samplebits := 24 } ∧
    (hpm_i2s_configure board_ndebug booted
      { main_type := .AUDIO_TYPE_OUTPUT, sub_type := .AUDIO_DSP_PARAM,
        config := { samplerate := 48000, channels := 2, samplebits := 24 }, value := 0 }
      ).returned = some board_ndebug.RT_EOK ∧
    (hpm_i2s_configure board_ndebug booted
      { main_type := .AUDIO_TYPE_OUTPUT, sub_type := .AUDIO_DSP_PARAM,
        config := { samplerate := 48000, channels := 2, samplebits := 24 }, value := 0 }
      ).machine.dev.audio_config =
      { samplerate := 48000, channels := 2, samplebits := 24 } := by
  decide

/-- C3: for every device state, either direction and every channel count that is none of
`i2s_mono_left`, `i2s_mono_right` and 2, `hpm_i2s_configure` asked to write it (as
`AUDIO_DSP_CHANNELS` or `AUDIO_DSP_PARAM`) returns `-RT_ERROR`, leaves the whole transfer
configuration (so `channel_slot_mask`, `sample_rate` and `audio_depth`) as it was and calls no
collaborator, in particular not `i2s_config_transfer`. -/
theorem configure_rejects_channels (P : Platform) (m : Machine) (dir : MainType) (sub : SubType)
    (cfg : rt_audio_configure) (value : Int)
    (hdir : dir ≠ .other)
    (hsub : sub = .AUDIO_DSP_CHANNELS ∨ sub = .AUDIO_DSP_PARAM)
    (hleft : cfg.channels ≠ P.i2s_mono_left) (hright : cfg.channels ≠ P.i2s_mono_right)
    (htwo : cfg.channels ≠ 2) :
    ∃ m1,
      hpm_i2s_configure P m
        { main_type := dir, sub_type := sub, config := cfg, value := value } =
        .ret (-P.RT_ERROR) m1 ∧
      m1.dev.transfer = m.dev.transfer ∧ m1.trace = m.trace := by
  have hnone := channel_slot_mask_of_rejected P cfg.channels hleft hright htwo
  rcases hsub with h | h
  · subst h
    refine ⟨{ m with dev := { m.dev with audio_config :=
      { m.dev.audio_config with channels := cfg.channels } } }, ?_, rfl, rfl⟩
    unfold hpm_i2s_configure
    simp only [configure_store_channels P m.dev dir cfg value hdir, hnone]
  · subst h
    refine ⟨{ m with dev := { m.dev with audio_config := cfg } }, ?_, rfl, rfl⟩
    unfold hpm_i2s_configure
    simp only [configure_store_param P m.dev dir cfg value hdir, hnone]

/-- Witness for C3 on the example platform: writing 7 channels is rejected. -/
theorem configure_rejects_channels_witness :
    ∃ m1,
      hpm_i2s_configure board booted
        { main_type := .AUDIO_TYPE_INPUT, sub_type := .AUDIO_DSP_CHANNELS,
          config := { samplerate := 0, channels := 7, samplebits := 0 }, value := 0 } =
        .ret (-board.RT_ERROR) m1 ∧
      m1.dev.transfer = booted.dev.transfer ∧ m1.trace = booted.trace :=
  configure_rejects_channels board booted .AUDIO_TYPE_INPUT .AUDIO_DSP_CHANNELS
    { samplerate := 0, channels := 7, samplebits := 0 } 0
    (by decide) (by decide) (by decide) (by decide) (by decide)


/-- C4, the code at a failing input: on a platform whose peripheral rejects sample rates above
96000 Hz, the device is initialised (which succeeds) and `hpm_i2s_configure` is asked for
192000 Hz, 2 channels, 16 bits in the output direction. The last call made is
`i2s_config_transfer` with these parameters, answered with a rejection, and
`hpm_i2s_configure` still returns `RT_EOK`. `hpm_i2s_init`, on a platform that rejects its
transfer configuration, returns `-RT_ERROR`. -/
theorem configure_returns_ok_on_rejected_transfer :
    (hpm_i2s_init board_limited { dev := hpm_i2s_set_0, trace := [] }).1
      = board_limited.RT_EOK ∧
    (hpm_i2s_configure board_limited
      (hpm_i2s_init board_limited { dev := hpm_i2s_set_0, trace := [] }).2
      { main_type := .AUDIO_TYPE_OUTPUT, sub_type := .AUDIO_DSP_PARAM,
        config := { samplerate := 192000, channels := 2, samplebits := 16 }, value := 0 }
      ).returned = some board_limited.RT_EOK ∧
    (hpm_i2s_configure board_limited
      (hpm_i2s_init board_limited { dev := hpm_i2s_set_0, trace := [] }).2
      { main_type := .AUDIO_TYPE_OUTPUT, sub_type := .AUDIO_DSP_PARAM,
        config := { samplerate := 192000, channels := 2, samplebits := 16 }, value := 0 }
      ).machine.trace.getLast? =
      some (.i2s_config_transfer hpm_i2s_set_0.base 24576000
        { sample_rate := 192000, protocol := 2, channel_slot_mask := 3, audio_depth := 0,
          master_mode := true, data_line := 0 } false) ∧
    (hpm_i2s_init board_rejecting_transfer { dev := hpm_i2s_set_0, trace := [] }).1
      = -board_rejecting_transfer.RT_ERROR := by
  decide

/-! ## Helper lemmas on traces and on `hpm_i2s_transmit` -/

theorem emitted_append (m : Machine) (dev : hpm_i2s) (evs : List Event) :
    emitted m { dev := dev, trace := m.trace ++ evs } = evs := by
  simp [emitted]

/-- The playback path of `hpm_i2s_transmit`: the value returned and the calls made. -/
theorem hpm_i2s_transmit_playback (P : Platform) (m : Machine) (writeBuf readBuf size : Nat)
    (h : writeBuf ≠ 0) :
    hpm_i2s_transmit P m writeBuf readBuf size =
      (if P.dma_setup_channel
            (m.trace ++
              if P.l1c_dc_is_enabled m.trace = true
              then [.l1c_dc_writeback writeBuf size] else [])
            m.dev.tx_dma_resource.base m.dev.tx_dma_resource.channel
            (tx_ch_config P m.dev writeBuf size) = false
        then -P.RT_ERROR else signed32 size,
       { m with trace := m.trace ++
          ((if P.l1c_dc_is_enabled m.trace = true
            then [.l1c_dc_writeback writeBuf size] else []) ++
           [.dma_setup_channel m.dev.tx_dma_resource.base m.dev.tx_dma_resource.channel
              (tx_ch_config P m.dev writeBuf size)
              (P.dma_setup_channel
                (m.trace ++
                  if P.l1c_dc_is_enabled m.trace = true
                  then [.l1c_dc_writeback writeBuf size] else [])
                m.dev.tx_dma_resource.base m.dev.tx_dma_resource.channel
                (tx_ch_config P m.dev writeBuf size))]) }) := by
  unfold hpm_i2s_transmit
  simp only [h, ne_eq, not_false_eq_true, if_true]
  cases hc : P.l1c_dc_is_enabled m.trace
  · simp only [Bool.false_eq_true, if_false, List.append_nil, List.nil_append]
    split_ifs <;> simp_all
  · simp only [if_true]
    split_ifs <;> simp_all

/-- The record path of `hpm_i2s_transmit`: the value returned and the calls made. -/
theorem hpm_i2s_transmit_record (P : Platform) (m : Machine) (readBuf size : Nat)
    (h : readBuf ≠ 0) :
    hpm_i2s_transmit P m 0 readBuf size =
      (if P.dma_setup_channel m.trace m.dev.rx_dma_resource.base
            m.dev.rx_dma_resource.channel (rx_ch_config P m.dev readBuf size) = false
        then -P.RT_ERROR else signed32 size,
       { m with trace := m.trace ++
          (.dma_setup_channel m.dev.rx_dma_resource.base m.dev.rx_dma_resource.channel
              (rx_ch_config P m.dev readBuf size)
              (P.dma_setup_channel m.trace m.dev.rx_dma_resource.base
                m.dev.rx_dma_resource.channel (rx_ch_config P m.dev readBuf size)) ::
           if P.dma_setup_channel m.trace m.dev.rx_dma_resource.base
                m.dev.rx_dma_resource.channel (rx_ch_config P m.dev readBuf size) = true ∧
              P.l1c_dc_is_enabled
                (m.trace ++
                  [.dma_setup_channel m.dev.rx_dma_resource.base
                    m.dev.rx_dma_resource.channel (rx_ch_config P m.dev readBuf size)
                    (P.dma_setup_channel m.trace m.dev.rx_dma_resource.base
                      m.dev.rx_dma_resource.channel
                      (rx_ch_config P m.dev readBuf size))]) = true
           then [.l1c_dc_invalidate readBuf size] else []) }) := by
  unfold hpm_i2s_transmit
  simp only [h, ne_eq, not_true_eq_false, not_false_eq_true, if_true, if_false]
  by_cases hs : P.dma_setup_channel m.trace m.dev.rx_dma_resource.base
      m.dev.rx_dma_resource.channel (rx_ch_config P m.dev readBuf size) = true
  · simp only [hs]
    split_ifs <;> simp_all
  · simp only [Bool.not_eq_true] at hs
    simp [hs]

/-- A call of `hpm_i2s_transmit` with both buffers `NULL` does nothing and returns `size`. -/
theorem hpm_i2s_transmit_null (P : Platform) (m : Machine) (size : Nat) :
    hpm_i2s_transmit P m 0 0 size = (signed32 size, m) := by
  simp [hpm_i2s_transmit]

/-- With at least one buffer given, `hpm_i2s_transmit` programs exactly one descriptor: the
playback descriptor on the TX channel when `writeBuf` is not `NULL`, the record descriptor on
the RX channel otherwise. -/
theorem hpm_i2s_transmit_programs_once (P : Platform) (m : Machine) (writeBuf readBuf size : Nat)
    (hbuf : writeBuf ≠ 0 ∨ readBuf ≠ 0) :
    ∃ success,
      programmed (emitted m (hpm_i2s_transmit P m writeBuf readBuf size).2) =
        [if writeBuf ≠ 0
         then (m.dev.tx_dma_resource.base, m.dev.tx_dma_resource.channel,
                tx_ch_config P m.dev writeBuf size, success)
         else (m.dev.rx_dma_resource.base, m.dev.rx_dma_resource.channel,
                rx_ch_config P m.dev readBuf size, success)] := by
  by_cases hw : writeBuf = 0
  · have hr : readBuf ≠ 0 := by
      rcases hbuf with h | h
      · exact absurd hw h
      · exact h
    subst hw
    rw [hpm_i2s_transmit_record P m readBuf size hr]
    refine ⟨P.dma_setup_channel m.trace m.dev.rx_dma_resource.base
      m.dev.rx_dma_resource.channel (rx_ch_config P m.dev readBuf size), ?_⟩
    simp only [emitted_append, ne_eq, not_true_eq_false, if_false]
    split_ifs <;> simp [programmed]
  · rw [hpm_i2s_transmit_playback P m writeBuf readBuf size hw]
    refine ⟨P.dma_setup_channel
      (m.trace ++ if P.l1c_dc_is_enabled m.trace = true
        then [.l1c_dc_writeback writeBuf size] else [])
      m.dev.tx_dma_resource.base m.dev.tx_dma_resource.channel
      (tx_ch_config P m.dev writeBuf size), ?_⟩
    simp only [emitted_append, ne_eq, hw, not_false_eq_true, if_true]
    split_ifs <;> simp [programmed]

/-- Whenever `I2S_FIFO_SIZE`, as a returned value, differs from `RT_EOK`,
`hpm_i2s_start(AUDIO_STREAM_RECORD)`
returns `-RT_ERROR`, whatever the DMA manager and the DMA engine answer: on success
`hpm_i2s_transmit` returns the byte count, which line 436 compares with `RT_EOK`. -/
theorem hpm_i2s_start_record_result (P : Platform) (m : Machine)
    (hsize : signed32 P.I2S_FIFO_SIZE ≠ P.RT_EOK) :
    (hpm_i2s_start P m .AUDIO_STREAM_RECORD).1 = -P.RT_ERROR := by
  unfold hpm_i2s_start
  cases hreq : P.dma_manager_request_resource m.trace with
  | none => rfl
  | some r =>
    simp only []
    split_ifs with h1
    · rfl
    · by_cases hb : m.dev.rx_buff = 0
      · rw [hb, hpm_i2s_transmit_null] at h1
        exact absurd (not_not.mp h1).symm hsize
      · rw [hpm_i2s_transmit_record P _ _ _ hb] at h1
        simp only [ne_eq, not_not] at h1
        split_ifs at h1 with h2
        · exact h1
        · exact absurd h1.symm hsize

/-- C5, the code at a failing input: on the example platform the DMA manager grants a channel
and the DMA engine accepts every descriptor. Started for recording after initialisation, the
driver programs one descriptor, which is accepted, and `hpm_i2s_start` returns `-RT_ERROR`. -/
theorem start_record_reports_error :
    board.dma_manager_request_resource booted.trace
      = some { base := 4027318272, channel := 0 } ∧
    (programmed (emitted booted (hpm_i2s_start board booted .AUDIO_STREAM_RECORD).2)).map
      (fun d => (d.1, d.2.1, d.2.2.2)) = [(4027318272, 0, true)] ∧
    (hpm_i2s_start board booted .AUDIO_STREAM_RECORD).1 = -board.RT_ERROR ∧
    board.RT_EOK ≠ -board.RT_ERROR := by
  decide

/-- A size below 2^31 comes back unchanged through the signed return type. -/
theorem signed32_of_lt (n : Nat) (h : n < 2 ^ 31) : signed32 n = (n : Int) := by
  have h1 : n % 2 ^ 32 = n := Nat.mod_eq_of_lt (by omega)
  unfold signed32
  rw [h1, if_pos h]

/-- C6, as amended: for every device state, every size and buffer arguments of which at
least one is not `NULL`, `hpm_i2s_transmit` programs exactly one descriptor, the playback
descriptor on the TX channel when `writeBuf` is not `NULL` (whatever `readBuf` is) and the
record descriptor on the RX channel otherwise. When the DMA engine accepted that descriptor
it returns `size` converted to the signed 32-bit return type, when the engine rejected it
`-RT_ERROR`. So for a size below 2^31 and a positive `RT_ERROR` it returns `size` exactly when
the engine accepted the descriptor. -/
theorem transmit_one_descriptor (P : Platform) (m : Machine) (writeBuf readBuf size : Nat)
    (hbuf : writeBuf ≠ 0 ∨ readBuf ≠ 0) :
    ∃ success,
      programmed (emitted m (hpm_i2s_transmit P m writeBuf readBuf size).2) =
        [if writeBuf ≠ 0
         then (m.dev.tx_dma_resource.base, m.dev.tx_dma_resource.channel,
                tx_ch_config P m.dev writeBuf size, success)
         else (m.dev.rx_dma_resource.base, m.dev.rx_dma_resource.channel,
                rx_ch_config P m.dev readBuf size, success)] ∧
      (success = true → (hpm_i2s_transmit P m writeBuf readBuf size).1 = signed32 size) ∧
      (success = false → (hpm_i2s_transmit P m writeBuf readBuf size).1 = -P.RT_ERROR) ∧
      (size < 2 ^ 31 → 0 < P.RT_ERROR →
        ((hpm_i2s_transmit P m writeBuf readBuf size).1 = (size : Int) ↔ success = true)) := by
  have hne : size < 2 ^ 31 → 0 < P.RT_ERROR → signed32 size ≠ -P.RT_ERROR := by
    intro hlt herr
    rw [signed32_of_lt size hlt]
    have : (0 : Int) ≤ (size : Int) := Int.ofNat_nonneg size
    omega
  by_cases hw : writeBuf = 0
  · have hr : readBuf ≠ 0 := by
      rcases hbuf with h | h
      · exact absurd hw h
      · exact h
    subst hw
    rw [hpm_i2s_transmit_record P m readBuf size hr]
    refine ⟨P.dma_setup_channel m.trace m.dev.rx_dma_resource.base
      m.dev.rx_dma_resource.channel (rx_ch_config P m.dev readBuf size), ?_, ?_, ?_, ?_⟩
    · simp only [emitted_append, ne_eq, not_true_eq_false, if_false]
      split_ifs <;> simp [programmed]
    · intro hs
      simp [hs]
    · intro hs
      simp [hs]
    · intro hlt herr
      cases hs : P.dma_setup_channel m.trace m.dev.rx_dma_resource.base
        m.dev.rx_dma_resource.channel (rx_ch_config P m.dev readBuf size)
      · have := hne hlt herr
        rw [signed32_of_lt size hlt] at this
        simpa using this.symm
      · simpa using signed32_of_lt size hlt
  · rw [hpm_i2s_transmit_playback P m writeBuf readBuf size hw]
    refine ⟨P.dma_setup_channel
      (m.trace ++ if P.l1c_dc_is_enabled m.trace = true
        then [.l1c_dc_writeback writeBuf size] else [])
      m.dev.tx_dma_resource.base m.dev.tx_dma_resource.channel
      (tx_ch_config P m.dev writeBuf size), ?_, ?_, ?_, ?_⟩
    · simp only [emitted_append, ne_eq, hw, not_false_eq_true, if_true]
      split_ifs <;> simp [programmed]
    · intro hs
      simp [hs]
    · intro hs
      simp [hs]
    · intro hlt herr
      cases hs : P.dma_setup_channel
        (m.trace ++ if P.l1c_dc_is_enabled m.trace = true
          then [.l1c_dc_writeback writeBuf size] else [])
        m.dev.tx_dma_resource.base m.dev.tx_dma_resource.channel
        (tx_ch_config P m.dev writeBuf size)
      · have := hne hlt herr
        rw [signed32_of_lt size hlt] at this
        simpa using this.symm
      · simpa using signed32_of_lt size hlt

/-- Witness for C6 as amended, on the example platform: a call with both buffers given and
512 bytes. -/
theorem transmit_one_descriptor_witness :
    ∃ success,
      programmed (emitted booted (hpm_i2s_transmit board booted 17301504 17303552 512).2) =
        [if 17301504 ≠ 0
         then (booted.dev.tx_dma_resource.base, booted.dev.tx_dma_resource.channel,
                tx_ch_config board booted.dev 17301504 512, success)
         else (booted.dev.rx_dma_resource.base, booted.dev.rx_dma_resource.channel,
                rx_ch_config board booted.dev 17303552 512, success)] ∧
      (success = true →
        (hpm_i2s_transmit board booted 17301504 17303552 512).1 = signed32 512) ∧
      (success = false →
        (hpm_i2s_transmit board booted 17301504 17303552 512).1 = -board.RT_ERROR) ∧
      (512 < 2 ^ 31 → 0 < board.RT_ERROR →
        ((hpm_i2s_transmit board booted 17301504 17303552 512).1 = ((512 : Nat) : Int)
          ↔ success = true)) :=
  transmit_one_descriptor board booted 17301504 17303552 512 (Or.inl (by decide))

/-- C6, counterexample: on the example platform a call of `hpm_i2s_transmit` with `writeBuf`
and `readBuf` both `NULL` and size 512 programs no descriptor, makes no call at all, and
returns 512. A playback call with size 4294967295 programs one descriptor, which the DMA
engine accepts, and returns -1, which is `-RT_ERROR`. -/
theorem transmit_null_buffers_counterexample :
    (hpm_i2s_transmit board booted 0 0 512).1 = 512 ∧
    emitted booted (hpm_i2s_transmit board booted 0 0 512).2 = [] ∧
    programmed (emitted booted (hpm_i2s_transmit board booted 0 0 512).2) = [] ∧
    (programmed (emitted booted
      (hpm_i2s_transmit board booted 17301504 0 4294967295).2)).map
      (fun d => (d.2.2.1.size_in_byte, d.2.2.2)) = [(4294967295, true)] ∧
    (hpm_i2s_transmit board booted 17301504 0 4294967295).1 = -1 ∧
    -board.RT_ERROR = -1 := by
  decide

/-- A call of `hpm_i2s_configure` that returns `RT_EOK` has derived the audio depth code from
the sample bits it leaves in `audio_config`. -/
theorem hpm_i2s_configure_audio_depth (P : Platform) (m m1 : Machine) (caps : rt_audio_caps)
    (h : hpm_i2s_configure P m caps = .ret P.RT_EOK m1)
    (hok : P.RT_EOK ≠ -P.RT_ERROR) :
    m1.dev.transfer.audio_depth = audio_depth_of m1.dev.audio_config.samplebits := by
  unfold hpm_i2s_configure at h
  cases hmask : channel_slot_mask_of P
      (configure_store P m.dev caps).2.audio_config.channels with
  | none =>
    simp only [hmask, Outcome.ret.injEq] at h
    exact absurd h.1.symm hok
  | some mask =>
    simp only [hmask] at h
    split_ifs at h
    simp only [Outcome.ret.injEq] at h
    rw [← h.2]

/-- C7: after a call of `hpm_i2s_configure` that returned `RT_EOK` (the depth code 0 being
`I2S_AUDIO_DEPTH_16_BITS`), the one descriptor a playback `hpm_i2s_transmit(X, n)` programs on
the TX channel has source (the system address of) `X`, incrementing, destination the TX data
register of the current data line plus 2 bytes, fixed, half-word width on both sides and byte
count `n` when the sample bits are 16, and the same with offset 0 and word width when they
are 32; the one descriptor a record call programs on the RX channel has the same width and
offset on the RX data register as its fixed source and the buffer as incrementing
destination. Fields not named by the driver are the defaults of the DMA driver. -/
theorem transmit_descriptor_from_depth (P : Platform) (m m1 : Machine) (caps : rt_audio_caps)
    (X Y readBuf n : Nat)
    (hcfg : hpm_i2s_configure P m caps = .ret P.RT_EOK m1)
    (hok : P.RT_EOK ≠ -P.RT_ERROR)
    (hdepth : P.I2S_AUDIO_DEPTH_16_BITS = 0)
    (hX : X ≠ 0) (hY : Y ≠ 0) :
    (m1.dev.audio_config.samplebits = 16 →
      (∃ success, programmed (emitted m1 (hpm_i2s_transmit P m1 X readBuf n).2) =
        [(m1.dev.tx_dma_resource.base, m1.dev.tx_dma_resource.channel,
          { P.dma_default_channel_config m1.dev.tx_dma_resource.base with
            src_addr := P.core_local_mem_to_sys_address X,
            dst_addr := (P.TXD m1.dev.base m1.dev.transfer.data_line + 2) % 2 ^ 32,
            src_width := P.DMA_TRANSFER_WIDTH_HALF_WORD,
            dst_width := P.DMA_TRANSFER_WIDTH_HALF_WORD,
            src_addr_ctrl := P.DMA_ADDRESS_CONTROL_INCREMENT,
            dst_addr_ctrl := P.DMA_ADDRESS_CONTROL_FIXED,
            size_in_byte := n,
            dst_mode := P.DMA_HANDSHAKE_MODE_HANDSHAKE,
            src_burst_size := P.DMA_NUM_TRANSFER_PER_BURST_1T }, success)]) ∧
      (∃ success, programmed (emitted m1 (hpm_i2s_transmit P m1 0 Y n).2) =
        [(m1.dev.rx_dma_resource.base, m1.dev.rx_dma_resource.channel,
          { P.dma_default_channel_config m1.dev.rx_dma_resource.base with
            src_addr := (P.RXD m1.dev.base m1.dev.transfer.data_line + 2) % 2 ^ 32,
            dst_addr := P.core_local_mem_to_sys_address Y,
            src_width := P.DMA_TRANSFER_WIDTH_HALF_WORD,
            dst_width := P.DMA_TRANSFER_WIDTH_HALF_WORD,
            src_addr_ctrl := P.DMA_ADDRESS_CONTROL_FIXED,
            dst_addr_ctrl := P.DMA_ADDRESS_CONTROL_INCREMENT,
            size_in_byte := n,
            src_mode := P.DMA_HANDSHAKE_MODE_HANDSHAKE,
            src_burst_size := P.DMA_NUM_TRANSFER_PER_BURST_1T }, success)])) ∧
    (m1.dev.audio_config.samplebits = 32 →
      (∃ success, programmed (emitted m1 (hpm_i2s_transmit P m1 X readBuf n).2) =
        [(m1.dev.tx_dma_resource.base, m1.dev.tx_dma_resource.channel,
          { P.dma_default_channel_config m1.dev.tx_dma_resource.base with
            src_addr := P.core_local_mem_to_sys_address X,
            dst_addr := (P.TXD m1.dev.base m1.dev.transfer.data_line + 0) % 2 ^ 32,
            src_width := P.DMA_TRANSFER_WIDTH_WORD,
            dst_width := P.DMA_TRANSFER_WIDTH_WORD,
            src_addr_ctrl := P.DMA_ADDRESS_CONTROL_INCREMENT,
            dst_addr_ctrl := P.DMA_ADDRESS_CONTROL_FIXED,
            size_in_byte := n,
            dst_mode := P.DMA_HANDSHAKE_MODE_HANDSHAKE,
            src_burst_size := P.DMA_NUM_TRANSFER_PER_BURST_1T }, success)]) ∧
      (∃ success, programmed (emitted m1 (hpm_i2s_transmit P m1 0 Y n).2) =
        [(m1.dev.rx_dma_resource.base, m1.dev.rx_dma_resource.channel,
          { P.dma_default_channel_config m1.dev.rx_dma_resource.base with
            src_addr := (P.RXD m1.dev.base m1.dev.transfer.data_line + 0) % 2 ^ 32,
            dst_addr := P.core_local_mem_to_sys_address Y,
            src_width := P.DMA_TRANSFER_WIDTH_WORD,
            dst_width := P.DMA_TRANSFER_WIDTH_WORD,
            src_addr_ctrl := P.DMA_ADDRESS_CONTROL_FIXED,
            dst_addr_ctrl := P.DMA_ADDRESS_CONTROL_INCREMENT,
            size_in_byte := n,
            src_mode := P.DMA_HANDSHAKE_MODE_HANDSHAKE,
            src_burst_size := P.DMA_NUM_TRANSFER_PER_BURST_1T }, success)])) := by
  have hd := hpm_i2s_configure_audio_depth P m m1 caps hcfg hok
  have htx := hpm_i2s_transmit_programs_once P m1 X readBuf n (Or.inl hX)
  have hrx := hpm_i2s_transmit_programs_once P m1 0 Y n (Or.inr hY)
  simp only [ne_eq, hX, not_false_eq_true, if_true] at htx
  simp only [ne_eq, not_true_eq_false, if_false] at hrx
  obtain ⟨s1, h1⟩ := htx
  obtain ⟨s2, h2⟩ := hrx
  constructor
  · intro hb
    rw [hb] at hd
    have hw : data_width P m1.dev = P.DMA_TRANSFER_WIDTH_HALF_WORD := by
      simp [data_width, hd, hdepth, audio_depth_of]
    have hs : data_shift_byte P m1.dev = 2 := by
      simp [data_shift_byte, hd, hdepth, audio_depth_of]
    refine ⟨⟨s1, ?_⟩, ⟨s2, ?_⟩⟩
    · rw [h1]; simp [tx_ch_config, hw, hs]
    · rw [h2]; simp [rx_ch_config, hw, hs]
  · intro hb
    rw [hb] at hd
    have h2ne : audio_depth_of 32 ≠ P.I2S_AUDIO_DEPTH_16_BITS := by
      rw [hdepth]; decide
    have hw : data_width P m1.dev = P.DMA_TRANSFER_WIDTH_WORD := by
      simp [data_width, hd, h2ne]
    have hs : data_shift_byte P m1.dev = 0 := by
      simp [data_shift_byte, hd, h2ne]
    refine ⟨⟨s1, ?_⟩, ⟨s2, ?_⟩⟩
    · rw [h1]; simp [tx_ch_config, hw, hs]
    · rw [h2]; simp [rx_ch_config, hw, hs]

/-- Witness for C7 on the example platform (no address translation, TX data registers at
offset 64 of the peripheral at 4027580416): configure 24000 Hz, mono left, 16 bits, then a
playback call with the buffer at 17301504 and 512 bytes. The descriptor has source 17301504,
destination TXD[0] + 2, half-word width (code 1) and 512 bytes. -/
theorem transmit_descriptor_from_depth_witness :
    hpm_i2s_configure board booted
      { main_type := .AUDIO_TYPE_OUTPUT, sub_type := .AUDIO_DSP_PARAM,
        config := { samplerate := 24000, channels := board.i2s_mono_left, samplebits := 16 },
        value := 0 } = .ret board.RT_EOK configured_mono_left_16 ∧
    ∃ success,
      programmed (emitted configured_mono_left_16
        (hpm_i2s_transmit board configured_mono_left_16 17301504 0 512).2) =
      [(0, 0,
        { src_addr := 17301504, dst_addr := 4027580416 + 64 + 2,
          src_width := 1, dst_width := 1,
          src_addr_ctrl := 0, dst_addr_ctrl := 2,
          size_in_byte := 512, src_mode := 0, dst_mode := 1, src_burst_size := 0 },
        success)] :=
  ⟨by decide,
   ((transmit_descriptor_from_depth board booted configured_mono_left_16
      { main_type := .AUDIO_TYPE_OUTPUT, sub_type := .AUDIO_DSP_PARAM,
        config := { samplerate := 24000, channels := board.i2s_mono_left, samplebits := 16 },
        value := 0 }
      17301504 17303552 0 512 (by decide) (by decide) (by decide) (by decide) (by decide)).1
      (by decide)).1⟩

/-- The machine after `hpm_i2s_start(AUDIO_STREAM_RECORD)` when the DMA manager grants `r`:
the resource is stored, the callback installed, the interrupt enabled, the request line bound,
and `hpm_i2s_transmit` has been called on the RX buffer. -/
theorem hpm_i2s_start_record_machine (P : Platform) (m : Machine) (r : hpm_dma_resource_t)
    (hreq : P.dma_manager_request_resource m.trace = some r) :
    (hpm_i2s_start P m .AUDIO_STREAM_RECORD).2 =
      (hpm_i2s_transmit P
        { dev := { m.dev with rx_dma_resource := r },
          trace := m.trace ++
            [.dma_manager_request_resource .rx (some r),
             .dma_manager_install_interrupt_callback r .rx,
             .dma_manager_enable_dma_interrupt r 1,
             .dmamux_config (P.DMA_SOC_CHN_TO_DMAMUX_CHN r.base r.channel % 256)
               m.dev.rx_dma_req true] }
        0 m.dev.rx_buff P.I2S_FIFO_SIZE).2 := by
  unfold hpm_i2s_start
  simp only [hreq]
  split_ifs <;> rfl

/-- The machine after `i2s_rx_dma_callback` entered with the transfer-complete status. -/
theorem i2s_rx_dma_callback_tc (P : Platform) (m : Machine) :
    i2s_rx_dma_callback P m P.DMA_CHANNEL_STATUS_TC =
      (hpm_i2s_transmit P
        { m with trace := m.trace ++
            [.dma_callback .rx P.DMA_CHANNEL_STATUS_TC,
             .rt_audio_rx_done m.dev.rx_buff P.I2S_FIFO_SIZE] }
        0 m.dev.rx_buff P.I2S_FIFO_SIZE).2 := by
  simp [i2s_rx_dma_callback]

/-- C8, as amended: on a platform whose DMA engine accepts the descriptors and whose data
cache is enabled, for the record transfer issued by `hpm_i2s_start(AUDIO_STREAM_RECORD)` and
for every one re-armed by `i2s_rx_dma_callback`, the cache invalidate of the receive buffer
range is the call made right after the programming of that transfer's descriptor, so before
its completion; the callback makes no invalidate between the completion event and the
receive-done notification. -/
theorem record_invalidate_follows_programming (P : Platform) (m : Machine)
    (r : hpm_dma_resource_t)
    (hreq : P.dma_manager_request_resource m.trace = some r)
    (hbuf : m.dev.rx_buff ≠ 0)
    (haccept : ∀ t b c d, P.dma_setup_channel t b c d = true)
    (hcache : ∀ t, P.l1c_dc_is_enabled t = true) :
    emitted m (hpm_i2s_start P m .AUDIO_STREAM_RECORD).2 =
      [.dma_manager_request_resource .rx (some r),
       .dma_manager_install_interrupt_callback r .rx,
       .dma_manager_enable_dma_interrupt r 1,
       .dmamux_config (P.DMA_SOC_CHN_TO_DMAMUX_CHN r.base r.channel % 256)
         m.dev.rx_dma_req true,
       .dma_setup_channel r.base r.channel
         (rx_ch_config P { m.dev with rx_dma_resource := r } m.dev.rx_buff P.I2S_FIFO_SIZE)
         true,
       .l1c_dc_invalidate m.dev.rx_buff P.I2S_FIFO_SIZE] ∧
    ∀ m1 : Machine, m1.dev.rx_buff ≠ 0 →
      emitted m1 (i2s_rx_dma_callback P m1 P.DMA_CHANNEL_STATUS_TC) =
        [.dma_callback .rx P.DMA_CHANNEL_STATUS_TC,
         .rt_audio_rx_done m1.dev.rx_buff P.I2S_FIFO_SIZE,
         .dma_setup_channel m1.dev.rx_dma_resource.base m1.dev.rx_dma_resource.channel
           (rx_ch_config P m1.dev m1.dev.rx_buff P.I2S_FIFO_SIZE) true,
         .l1c_dc_invalidate m1.dev.rx_buff P.I2S_FIFO_SIZE] := by
  constructor
  · rw [hpm_i2s_start_record_machine P m r hreq, hpm_i2s_transmit_record P _ _ _ hbuf]
    simp [emitted, haccept, hcache]
  · intro m1 h1
    rw [i2s_rx_dma_callback_tc, hpm_i2s_transmit_record P _ _ _ h1]
    simp [emitted, haccept, hcache]

/-- Witness for C8 as amended, on the example platform. -/
theorem record_invalidate_follows_programming_witness :
    emitted booted (hpm_i2s_start board booted .AUDIO_STREAM_RECORD).2 =
      [.dma_manager_request_resource .rx (some { base := 4027318272, channel := 0 }),
       .dma_manager_install_interrupt_callback { base := 4027318272, channel := 0 } .rx,
       .dma_manager_enable_dma_interrupt { base := 4027318272, channel := 0 } 1,
       .dmamux_config
         (board.DMA_SOC_CHN_TO_DMAMUX_CHN 4027318272 0 % 256) booted.dev.rx_dma_req true,
       .dma_setup_channel 4027318272 0
         (rx_ch_config board
           { booted.dev with rx_dma_resource := { base := 4027318272, channel := 0 } }
           booted.dev.rx_buff board.I2S_FIFO_SIZE)
         true,
       .l1c_dc_invalidate booted.dev.rx_buff board.I2S_FIFO_SIZE] :=
  (record_invalidate_follows_programming board booted { base := 4027318272, channel := 0 }
    rfl (by decide) (fun _ _ _ _ => rfl) (fun _ => rfl)).1

/-- C8, counterexample: on the example platform the initialised device is started for
recording and the record callback is then entered once with the transfer-complete status (8).
These are all the calls made. The invalidate of the receive buffer (sixth call) is made after
the first descriptor was programmed (fifth call) and before its completion (seventh call), and
the invalidate made in the callback (tenth call) follows the programming of the second
descriptor, which has not completed. -/
theorem record_invalidate_counterexample :
    emitted booted
      (i2s_rx_dma_callback board (hpm_i2s_start board booted .AUDIO_STREAM_RECORD).2 8) =
      [.dma_manager_request_resource .rx (some { base := 4027318272, channel := 0 }),
       .dma_manager_install_interrupt_callback { base := 4027318272, channel := 0 } .rx,
       .dma_manager_enable_dma_interrupt { base := 4027318272, channel := 0 } 1,
       .dmamux_config 0 20 true,
       .dma_setup_channel 4027318272 0
         { src_addr := 4027580466, dst_addr := 17303552, src_width := 1, dst_width := 1,
           src_addr_ctrl := 2, dst_addr_ctrl := 0, size_in_byte := 2048, src_mode := 1,
           dst_mode := 0, src_burst_size := 0 } true,
       .l1c_dc_invalidate 17303552 2048,
       .dma_callback .rx 8,
       .rt_audio_rx_done 17303552 2048,
       .dma_setup_channel 4027318272 0
         { src_addr := 4027580466, dst_addr := 17303552, src_width := 1, dst_width := 1,
           src_addr_ctrl := 2, dst_addr_ctrl := 0, size_in_byte := 2048, src_mode := 1,
           dst_mode := 0, src_burst_size := 0 } true,
       .l1c_dc_invalidate 17303552 2048] ∧
    no_invalidate_in_flight board.DMA_CHANNEL_STATUS_TC false
      (emitted booted
        (i2s_rx_dma_callback board (hpm_i2s_start board booted .AUDIO_STREAM_RECORD).2 8))
      = false := by
  decide

/-- C9: for every playback call `hpm_i2s_transmit(writeBuf = X, size = n)` made while the data
cache is enabled, the calls made are exactly a cache write-back over `X`, `n` followed by the
programming of one descriptor on the TX channel, whose source is (the system address of) `X`
and whose byte count is `n`: the write-back comes first and no descriptor is programmed
without it. -/
theorem transmit_playback_writeback_first (P : Platform) (m : Machine) (X readBuf n : Nat)
    (hX : X ≠ 0) (hcache : P.l1c_dc_is_enabled m.trace = true) :
    ∃ ch_config success,
      emitted m (hpm_i2s_transmit P m X readBuf n).2 =
        [.l1c_dc_writeback X n,
         .dma_setup_channel m.dev.tx_dma_resource.base m.dev.tx_dma_resource.channel
           ch_config success] ∧
      ch_config.src_addr = P.core_local_mem_to_sys_address X ∧
      ch_config.size_in_byte = n := by
  refine ⟨tx_ch_config P m.dev X n,
    P.dma_setup_channel (m.trace ++ [.l1c_dc_writeback X n]) m.dev.tx_dma_resource.base
      m.dev.tx_dma_resource.channel (tx_ch_config P m.dev X n), ?_, rfl, rfl⟩
  unfold hpm_i2s_transmit
  simp only [hX, hcache, ne_eq, not_false_eq_true, if_true]
  split_ifs <;> simp [emitted]

/-- Witness for C9 on the example platform (data cache enabled): a playback call with a buffer
at address 17301504 and 512 bytes. -/
theorem transmit_playback_writeback_first_witness :
    ∃ ch_config success,
      emitted booted (hpm_i2s_transmit board booted 17301504 0 512).2 =
        [.l1c_dc_writeback 17301504 512,
         .dma_setup_channel booted.dev.tx_dma_resource.base
           booted.dev.tx_dma_resource.channel ch_config success] ∧
      ch_config.src_addr = board.core_local_mem_to_sys_address 17301504 ∧
      ch_config.size_in_byte = 512 :=
  transmit_playback_writeback_first board booted 17301504 0 512 (by decide) rfl


/-- C10: from any device state with a receive buffer, when the DMA manager grants a channel
and the DMA engine accepts the descriptors, `hpm_i2s_start(AUDIO_STREAM_RECORD)` followed by
one record callback with the transfer-complete status makes, in the callback, the
receive-done notification with the RX buffer and `I2S_FIFO_SIZE` and then programs a new RX
descriptor into the same buffer, with no other start call; the descriptors programmed since
the start are two. A callback with any other status makes no call at all: it neither notifies
nor re-arms. -/
theorem record_rearms_after_completion (P : Platform) (m : Machine) (r : hpm_dma_resource_t)
    (hreq : P.dma_manager_request_resource m.trace = some r)
    (hbuf : m.dev.rx_buff ≠ 0)
    (haccept : ∀ t b c d, P.dma_setup_channel t b c d = true) :
    (∃ ch_config,
      (emitted (hpm_i2s_start P m .AUDIO_STREAM_RECORD).2
        (i2s_rx_dma_callback P (hpm_i2s_start P m .AUDIO_STREAM_RECORD).2
          P.DMA_CHANNEL_STATUS_TC)).take 3 =
        [.dma_callback .rx P.DMA_CHANNEL_STATUS_TC,
         .rt_audio_rx_done m.dev.rx_buff P.I2S_FIFO_SIZE,
         .dma_setup_channel r.base r.channel ch_config true] ∧
      ch_config.dst_addr = P.core_local_mem_to_sys_address m.dev.rx_buff ∧
      ch_config.size_in_byte = P.I2S_FIFO_SIZE) ∧
    (programmed (emitted m
      (i2s_rx_dma_callback P (hpm_i2s_start P m .AUDIO_STREAM_RECORD).2
        P.DMA_CHANNEL_STATUS_TC))).length = 2 ∧
    (∀ int_stat, int_stat ≠ P.DMA_CHANNEL_STATUS_TC →
      emitted (hpm_i2s_start P m .AUDIO_STREAM_RECORD).2
        (i2s_rx_dma_callback P (hpm_i2s_start P m .AUDIO_STREAM_RECORD).2 int_stat) =
        [.dma_callback .rx int_stat] ∧
      (i2s_rx_dma_callback P (hpm_i2s_start P m .AUDIO_STREAM_RECORD).2 int_stat).dev =
        (hpm_i2s_start P m .AUDIO_STREAM_RECORD).2.dev) := by
  refine ⟨⟨rx_ch_config P { m.dev with rx_dma_resource := r } m.dev.rx_buff P.I2S_FIFO_SIZE,
    ?_, rfl, rfl⟩, ?_, ?_⟩
  · rw [i2s_rx_dma_callback_tc, hpm_i2s_start_record_machine P m r hreq,
      hpm_i2s_transmit_record P _ _ _ hbuf]
    rw [hpm_i2s_transmit_record P _ _ _ hbuf]
    simp [emitted, haccept]
  · rw [i2s_rx_dma_callback_tc, hpm_i2s_start_record_machine P m r hreq,
      hpm_i2s_transmit_record P _ _ _ hbuf]
    rw [hpm_i2s_transmit_record P _ _ _ hbuf]
    simp only [emitted, haccept, List.append_assoc, List.drop_left, true_and]
    split_ifs <;> simp [programmed]
  · intro int_stat hne
    simp [i2s_rx_dma_callback, hne, emitted]

/-- Witness for C10 on the example platform: a callback with status 2, which is not the
transfer-complete status, after a start for recording. -/
theorem record_rearms_after_completion_witness :
    (programmed (emitted booted
      (i2s_rx_dma_callback board (hpm_i2s_start board booted .AUDIO_STREAM_RECORD).2
        board.DMA_CHANNEL_STATUS_TC))).length = 2 ∧
    emitted (hpm_i2s_start board booted .AUDIO_STREAM_RECORD).2
      (i2s_rx_dma_callback board (hpm_i2s_start board booted .AUDIO_STREAM_RECORD).2 2) =
      [.dma_callback .rx 2] :=
  ⟨(record_rearms_after_completion board booted { base := 4027318272, channel := 0 }
      rfl (by decide) (fun _ _ _ _ => rfl)).2.1,
   ((record_rearms_after_completion board booted { base := 4027318272, channel := 0 }
      rfl (by decide) (fun _ _ _ _ => rfl)).2.2 2 (by decide)).1⟩

/-! ## Helper lemmas on the acquire and release counts -/

theorem acquire_count_append (es fs : List Event) :
    acquire_count (es ++ fs) = acquire_count es + acquire_count fs := by
  induction es with
  | nil => simp [acquire_count]
  | cons e es ih =>
    cases e with
    | dma_manager_request_resource slot granted =>
      cases granted with
      | none => simp [acquire_count, ih]
      | some r => simp [acquire_count, ih]; omega
    | _ => simp [acquire_count, ih]

theorem release_count_append (es fs : List Event) :
    release_count (es ++ fs) = release_count es + release_count fs := by
  induction es with
  | nil => simp [release_count]
  | cons e es ih =>
    cases e with
    | dma_manager_release_resource slot r => simp [release_count, ih]; omega
    | _ => simp [release_count, ih]

/-- A call of `hpm_i2s_transmit` leaves the device as it was and makes no call to the DMA
manager. -/
theorem hpm_i2s_transmit_trace (P : Platform) (m : Machine) (writeBuf readBuf size : Nat) :
    ∃ evs, (hpm_i2s_transmit P m writeBuf readBuf size).2 =
        { m with trace := m.trace ++ evs } ∧
      acquire_count evs = 0 ∧ release_count evs = 0 := by
  by_cases hw : writeBuf = 0
  · by_cases hr : readBuf = 0
    · subst hw; subst hr
      exact ⟨[], by simp [hpm_i2s_transmit_null], rfl, rfl⟩
    · subst hw
      rw [hpm_i2s_transmit_record P m readBuf size hr]
      refine ⟨_, rfl, ?_, ?_⟩
      · split_ifs <;> simp [acquire_count]
      · split_ifs <;> simp [release_count]
  · rw [hpm_i2s_transmit_playback P m writeBuf readBuf size hw]
    refine ⟨_, rfl, ?_, ?_⟩
    · split_ifs <;> simp [acquire_count]
    · split_ifs <;> simp [release_count]


/-- C11, as amended: for each direction, after a call of `hpm_i2s_start` in which the DMA
manager granted a channel `r` (for playback that call returns `RT_EOK`), two consecutive calls
of `hpm_i2s_stop` for the same direction both return `RT_EOK`, and each of them calls
`dma_manager_release_resource` once on the resource granted to that direction and makes no
other call. Counted from the start, the run has one acquire call and two release calls. -/
theorem stop_twice_releases_twice (P : Platform) (m : Machine) (r : hpm_dma_resource_t)
    (hreq : P.dma_manager_request_resource m.trace = some r) :
    ((hpm_i2s_start P m .AUDIO_STREAM_REPLAY).1 = P.RT_EOK ∧
      (hpm_i2s_stop P (hpm_i2s_start P m .AUDIO_STREAM_REPLAY).2 .AUDIO_STREAM_REPLAY).1
        = P.RT_EOK ∧
      (hpm_i2s_stop P
        (hpm_i2s_stop P (hpm_i2s_start P m .AUDIO_STREAM_REPLAY).2 .AUDIO_STREAM_REPLAY).2
        .AUDIO_STREAM_REPLAY).1 = P.RT_EOK ∧
      emitted (hpm_i2s_start P m .AUDIO_STREAM_REPLAY).2
        (hpm_i2s_stop P
          (hpm_i2s_stop P (hpm_i2s_start P m .AUDIO_STREAM_REPLAY).2 .AUDIO_STREAM_REPLAY).2
          .AUDIO_STREAM_REPLAY).2 =
        [.dma_manager_release_resource .tx r, .dma_manager_release_resource .tx r] ∧
      acquire_count (emitted m
        (hpm_i2s_stop P
          (hpm_i2s_stop P (hpm_i2s_start P m .AUDIO_STREAM_REPLAY).2 .AUDIO_STREAM_REPLAY).2
          .AUDIO_STREAM_REPLAY).2) = 1 ∧
      release_count (emitted m
        (hpm_i2s_stop P
          (hpm_i2s_stop P (hpm_i2s_start P m .AUDIO_STREAM_REPLAY).2 .AUDIO_STREAM_REPLAY).2
          .AUDIO_STREAM_REPLAY).2) = 2) ∧
    ((hpm_i2s_stop P (hpm_i2s_start P m .AUDIO_STREAM_RECORD).2 .AUDIO_STREAM_RECORD).1
        = P.RT_EOK ∧
      (hpm_i2s_stop P
        (hpm_i2s_stop P (hpm_i2s_start P m .AUDIO_STREAM_RECORD).2 .AUDIO_STREAM_RECORD).2
        .AUDIO_STREAM_RECORD).1 = P.RT_EOK ∧
      emitted (hpm_i2s_start P m .AUDIO_STREAM_RECORD).2
        (hpm_i2s_stop P
          (hpm_i2s_stop P (hpm_i2s_start P m .AUDIO_STREAM_RECORD).2 .AUDIO_STREAM_RECORD).2
          .AUDIO_STREAM_RECORD).2 =
        [.dma_manager_release_resource .rx r, .dma_manager_release_resource .rx r] ∧
      acquire_count (emitted m
        (hpm_i2s_stop P
          (hpm_i2s_stop P (hpm_i2s_start P m .AUDIO_STREAM_RECORD).2 .AUDIO_STREAM_RECORD).2
          .AUDIO_STREAM_RECORD).2) = 1 ∧
      release_count (emitted m
        (hpm_i2s_stop P
          (hpm_i2s_stop P (hpm_i2s_start P m .AUDIO_STREAM_RECORD).2 .AUDIO_STREAM_RECORD).2
          .AUDIO_STREAM_RECORD).2) = 2) := by
  constructor
  · have hs : hpm_i2s_start P m .AUDIO_STREAM_REPLAY =
        (P.RT_EOK,
          { dev := { m.dev with tx_dma_resource := r },
            trace := m.trace ++
              [.dma_manager_request_resource .tx (some r),
               .dma_manager_install_interrupt_callback r .tx,
               .dma_manager_enable_dma_interrupt r 1,
               .dmamux_config (P.DMA_SOC_CHN_TO_DMAMUX_CHN r.base r.channel % 256)
                 m.dev.tx_dma_req true,
               .rt_audio_tx_complete] }) := by
      unfold hpm_i2s_start
      simp only [hreq]
    rw [hs]
    refine ⟨rfl, rfl, rfl, ?_, ?_, ?_⟩
    · simp [hpm_i2s_stop, emitted]
    · simp [hpm_i2s_stop, emitted, acquire_count]
    · simp [hpm_i2s_stop, emitted, release_count]
  · rw [hpm_i2s_start_record_machine P m r hreq]
    obtain ⟨evs, hevs, hacq, hrel⟩ := hpm_i2s_transmit_trace P
      { dev := { m.dev with rx_dma_resource := r },
        trace := m.trace ++
          [.dma_manager_request_resource .rx (some r),
           .dma_manager_install_interrupt_callback r .rx,
           .dma_manager_enable_dma_interrupt r 1,
           .dmamux_config (P.DMA_SOC_CHN_TO_DMAMUX_CHN r.base r.channel % 256)
             m.dev.rx_dma_req true] }
      0 m.dev.rx_buff P.I2S_FIFO_SIZE
    rw [hevs]
    refine ⟨rfl, rfl, ?_, ?_, ?_⟩
    · simp [hpm_i2s_stop, emitted]
    · simp [hpm_i2s_stop, emitted, acquire_count, acquire_count_append, hacq]
    · simp [hpm_i2s_stop, emitted, release_count, release_count_append, hrel]

/-- Witness for C11 as amended, on the example platform: playback is started on the
initialised device and stopped twice. -/
theorem stop_twice_releases_twice_witness :
    board.dma_manager_request_resource booted.trace
      = some { base := 4027318272, channel := 0 } ∧
    (hpm_i2s_stop board
      (hpm_i2s_stop board (hpm_i2s_start board booted .AUDIO_STREAM_REPLAY).2
        .AUDIO_STREAM_REPLAY).2
      .AUDIO_STREAM_REPLAY).1 = board.RT_EOK ∧
    emitted (hpm_i2s_start board booted .AUDIO_STREAM_REPLAY).2
      (hpm_i2s_stop board
        (hpm_i2s_stop board (hpm_i2s_start board booted .AUDIO_STREAM_REPLAY).2
          .AUDIO_STREAM_REPLAY).2
        .AUDIO_STREAM_REPLAY).2 =
      [.dma_manager_release_resource .tx { base := 4027318272, channel := 0 },
       .dma_manager_release_resource .tx { base := 4027318272, channel := 0 }] :=
  ⟨rfl,
   (stop_twice_releases_twice board booted { base := 4027318272, channel := 0 } rfl).1.2.2.1,
   (stop_twice_releases_twice board booted { base := 4027318272, channel := 0 }
      rfl).1.2.2.2.1⟩

/-- C11, counterexample: on the example platform playback is started on the initialised
device, which succeeds, and stopped twice; both stops return `RT_EOK`. These are all the calls
made: one resource is acquired and `dma_manager_release_resource` is called twice, so the
release calls are not as many as the acquire calls. -/
theorem stop_twice_counterexample :
    (hpm_i2s_start board booted .AUDIO_STREAM_REPLAY).1 = board.RT_EOK ∧
    (hpm_i2s_stop board (hpm_i2s_start board booted .AUDIO_STREAM_REPLAY).2
      .AUDIO_STREAM_REPLAY).1 = board.RT_EOK ∧
    (hpm_i2s_stop board
      (hpm_i2s_stop board (hpm_i2s_start board booted .AUDIO_STREAM_REPLAY).2
        .AUDIO_STREAM_REPLAY).2
      .AUDIO_STREAM_REPLAY).1 = board.RT_EOK ∧
    emitted booted
      (hpm_i2s_stop board
        (hpm_i2s_stop board (hpm_i2s_start board booted .AUDIO_STREAM_REPLAY).2
          .AUDIO_STREAM_REPLAY).2
        .AUDIO_STREAM_REPLAY).2 =
      [.dma_manager_request_resource .tx (some { base := 4027318272, channel := 0 }),
       .dma_manager_install_interrupt_callback { base := 4027318272, channel := 0 } .tx,
       .dma_manager_enable_dma_interrupt { base := 4027318272, channel := 0 } 1,
       .dmamux_config 0 21 true,
       .rt_audio_tx_complete,
       .dma_manager_release_resource .tx { base := 4027318272, channel := 0 },
       .dma_manager_release_resource .tx { base := 4027318272, channel := 0 }] ∧
    acquire_count (emitted booted
      (hpm_i2s_stop board
        (hpm_i2s_stop board (hpm_i2s_start board booted .AUDIO_STREAM_REPLAY).2
          .AUDIO_STREAM_REPLAY).2
        .AUDIO_STREAM_REPLAY).2) = 1 ∧
    release_count (emitted booted
      (hpm_i2s_stop board
        (hpm_i2s_stop board (hpm_i2s_start board booted .AUDIO_STREAM_REPLAY).2
          .AUDIO_STREAM_REPLAY).2
        .AUDIO_STREAM_REPLAY).2) = 2 ∧
    acquire_count (emitted booted
      (hpm_i2s_stop board
        (hpm_i2s_stop board (hpm_i2s_start board booted .AUDIO_STREAM_REPLAY).2
          .AUDIO_STREAM_REPLAY).2
        .AUDIO_STREAM_REPLAY).2) ≠
    release_count (emitted booted
      (hpm_i2s_stop board
        (hpm_i2s_stop board (hpm_i2s_start board booted .AUDIO_STREAM_REPLAY).2
          .AUDIO_STREAM_REPLAY).2
        .AUDIO_STREAM_REPLAY).2) := by
  decide

end DrvI2s
